import Mathlib

/-!
Verification of the Inventera.nu warehouse inventory application.

Shallow embedding of:
* the record types of shared/schema.ts,
* the in-memory store MemStorage of server/storage.ts (JS Map semantics are
  modelled by association lists keyed by Nat; randomUUID is modelled by a
  fresh-id counter, Date values by a Nat clock field on the store),
* the REST mutation handlers of server/routes.ts, each returning the new
  store, the HTTP response and a trace of primitive actions (store writes
  and websocket broadcasts) in source order,
* the websocket broadcast loop of server/routes.ts, including the number of
  JSON.stringify invocations and the abort-on-throw semantics of forEach,
* the client cache-invalidation switch of client/src/pages/home.tsx,
* the DatabaseStorage / SQLite layer of server/storage.ts with the foreign
  key behaviour configured in server/db.ts and shared/schema.ts
  (foreign_keys = ON, inventory_counts.article_id ON DELETE CASCADE).
-/

namespace Inventera

/-- A user row (shared/schema.ts, table users). Ids model UUID strings,
the lastActive Date is a Nat timestamp. -/
structure User where
  id : Nat
  name : String
  role : String
  email : Option String
  isActive : Bool
  lastActive : Option Nat
deriving Repr, DecidableEq

/-- Input accepted by insertUserSchema (id and lastActive omitted; role and
isActive have column defaults so they are optional; email is nullable).
A JSON null and an absent key behave identically in createUser, so both are
modelled as none. -/
structure InsertUser where
  name : String
  role : Option String
  email : Option String
  isActive : Option Bool
deriving Repr, DecidableEq

/-- Partial update accepted by PATCH /api/users/:id via
insertUserSchema.partial(): for email, none = key absent,
some none = explicit null. -/
structure UserPatch where
  name : Option String
  role : Option String
  email : Option (Option String)
  isActive : Option Bool
deriving Repr, DecidableEq

/-- Spread merge modelling the JS expression with user first and the patch
fields second, as in MemStorage.updateUser. -/
def mergeUser (u : User) (p : UserPatch) : User :=
  { u with
    name := p.name.getD u.name
    role := p.role.getD u.role
    email := p.email.getD u.email
    isActive := p.isActive.getD u.isActive }

/-- An article row (shared/schema.ts, table articles). -/
structure Article where
  id : Nat
  articleNumber : String
  description : String
  length : String
  location : String
  inventoryCount : Option Int
  notes : Option String
  isInventoried : Bool
  lastInventoriedBy : Option Nat
  lastInventoriedAt : Option Nat
  createdAt : Option Nat
deriving Repr, DecidableEq

/-- Input accepted by insertArticleSchema (id, createdAt,
lastInventoriedAt omitted). -/
structure InsertArticle where
  articleNumber : String
  description : String
  length : String
  location : String
  inventoryCount : Option Int
  notes : Option String
  isInventoried : Option Bool
  lastInventoriedBy : Option Nat
deriving Repr, DecidableEq

/-- Partial update over the full Article record: PATCH /api/articles/:id
passes req.body to storage.updateArticle without schema validation, so every
Article field, including id, may appear. none = key absent,
some none = explicit null for nullable fields. -/
structure ArticlePatch where
  id : Option Nat
  articleNumber : Option String
  description : Option String
  length : Option String
  location : Option String
  inventoryCount : Option (Option Int)
  notes : Option (Option String)
  isInventoried : Option Bool
  lastInventoriedBy : Option (Option Nat)
  lastInventoriedAt : Option (Option Nat)
  createdAt : Option (Option Nat)
deriving Repr, DecidableEq

/-- The patch with every key absent. -/
def ArticlePatch.empty : ArticlePatch :=
  ⟨none, none, none, none, none, none, none, none, none, none, none⟩

/-- Spread merge with the article first and the patch second
(MemStorage.updateArticle). -/
def mergeArticle (a : Article) (p : ArticlePatch) : Article :=
  { id := p.id.getD a.id
    articleNumber := p.articleNumber.getD a.articleNumber
    description := p.description.getD a.description
    length := p.length.getD a.length
    location := p.location.getD a.location
    inventoryCount := p.inventoryCount.getD a.inventoryCount
    notes := p.notes.getD a.notes
    isInventoried := p.isInventoried.getD a.isInventoried
    lastInventoriedBy := p.lastInventoriedBy.getD a.lastInventoriedBy
    lastInventoriedAt := p.lastInventoriedAt.getD a.lastInventoriedAt
    createdAt := p.createdAt.getD a.createdAt }

/-- An order line row (shared/schema.ts, table order_lines). -/
structure OrderLine where
  id : Nat
  orderNumber : String
  articleNumber : String
  description : String
  length : String
  quantity : Int
  pickStatus : String
  isInventoried : Bool
  inventoriedBy : Option Nat
  inventoriedAt : Option Nat
  createdAt : Option Nat
deriving Repr, DecidableEq

/-- Input accepted by insertOrderLineSchema (id, createdAt,
inventoriedAt omitted). -/
structure InsertOrderLine where
  orderNumber : String
  articleNumber : String
  description : String
  length : String
  quantity : Int
  pickStatus : Option String
  isInventoried : Option Bool
  inventoriedBy : Option Nat
deriving Repr, DecidableEq

/-- Partial update over the full OrderLine record
(storage.updateOrderLine takes a JS Partial). -/
structure OrderLinePatch where
  id : Option Nat
  orderNumber : Option String
  articleNumber : Option String
  description : Option String
  length : Option String
  quantity : Option Int
  pickStatus : Option String
  isInventoried : Option Bool
  inventoriedBy : Option (Option Nat)
  inventoriedAt : Option (Option Nat)
  createdAt : Option (Option Nat)
deriving Repr, DecidableEq

/-- Spread merge with the order line first and the patch second
(MemStorage.updateOrderLine). -/
def mergeOrderLine (l : OrderLine) (p : OrderLinePatch) : OrderLine :=
  { id := p.id.getD l.id
    orderNumber := p.orderNumber.getD l.orderNumber
    articleNumber := p.articleNumber.getD l.articleNumber
    description := p.description.getD l.description
    length := p.length.getD l.length
    quantity := p.quantity.getD l.quantity
    pickStatus := p.pickStatus.getD l.pickStatus
    isInventoried := p.isInventoried.getD l.isInventoried
    inventoriedBy := p.inventoriedBy.getD l.inventoriedBy
    inventoriedAt := p.inventoriedAt.getD l.inventoriedAt
    createdAt := p.createdAt.getD l.createdAt }

/-- An inventory count row (shared/schema.ts, table inventory_counts). -/
structure InventoryCount where
  id : Nat
  articleId : Nat
  userId : Nat
  count : Int
  notes : Option String
  createdAt : Option Nat
deriving Repr, DecidableEq

/-- Input accepted by insertInventoryCountSchema (id, createdAt omitted). -/
structure InsertInventoryCount where
  articleId : Nat
  userId : Nat
  count : Int
  notes : Option String
deriving Repr, DecidableEq

/-- Partial update over the full InventoryCount record
(storage.updateInventoryCount takes a JS Partial). -/
structure CountPatch where
  id : Option Nat
  articleId : Option Nat
  userId : Option Nat
  count : Option Int
  notes : Option (Option String)
  createdAt : Option (Option Nat)
deriving Repr, DecidableEq

/-- Spread merge with the count first and the patch second
(MemStorage.updateInventoryCount). -/
def mergeCount (c : InventoryCount) (p : CountPatch) : InventoryCount :=
  { id := p.id.getD c.id
    articleId := p.articleId.getD c.articleId
    userId := p.userId.getD c.userId
    count := p.count.getD c.count
    notes := p.notes.getD c.notes
    createdAt := p.createdAt.getD c.createdAt }

/-! ### JS Map, modelled as an insertion-ordered association list -/

/-- A JS Map from ids to rows, in insertion order. -/
abbrev Table (α : Type) := List (Nat × α)

/-- Map.get: the entry with the key (keys are unique in a Map, so first
match). -/
def tget {α : Type} (t : Table α) (k : Nat) : Option α :=
  match t with
  | [] => none
  | p :: rest => if p.1 == k then some p.2 else tget rest k

/-- Map.has. -/
def thas {α : Type} (t : Table α) (k : Nat) : Bool :=
  (tget t k).isSome

/-- Map.set: replace in place when the key exists, append otherwise. -/
def tset {α : Type} (t : Table α) (k : Nat) (v : α) : Table α :=
  if thas t k then
    t.map (fun p => if p.1 == k then (k, v) else p)
  else
    t ++ [(k, v)]

/-- Map.delete (the Bool result is whether the key was present). -/
def tdel {α : Type} (t : Table α) (k : Nat) : Table α :=
  t.filter (fun p => ! (p.1 == k))

/-- Array.from(map.values()). -/
def tvalues {α : Type} (t : Table α) : List α :=
  t.map (fun p => p.2)

/-! ### The in-memory store (MemStorage of server/storage.ts) -/

/-- The MemStorage state: the four Maps, the fresh-id counter standing for
randomUUID (each call returns a fresh, unique value), and a Nat clock
standing for new Date(). -/
structure Store where
  users : Table User
  articles : Table Article
  orderLines : Table OrderLine
  inventoryCounts : Table InventoryCount
  nextId : Nat
  now : Nat
deriving Repr, DecidableEq

/-- A store with no rows at all. -/
def Store.empty : Store := ⟨[], [], [], [], 0, 0⟩

/-- MemStorage.createUser. The JS or-defaults use || for role (so the empty
string also falls back) and for email (so the empty string becomes null),
and ?? for isActive. -/
def createUser (s : Store) (iu : InsertUser) : Store × User :=
  let id := s.nextId
  let u : User :=
    { id := id
      name := iu.name
      role := match iu.role with
              | none => "Lagerarbetare"
              | some r => if r = "" then "Lagerarbetare" else r
      email := match iu.email with
               | none => none
               | some e => if e = "" then none else some e
      isActive := iu.isActive.getD true
      lastActive := some s.now }
  ({ s with users := tset s.users id u, nextId := s.nextId + 1 }, u)

/-- MemStorage.updateUser. -/
def updateUser (s : Store) (id : Nat) (p : UserPatch) : Store × Option User :=
  match tget s.users id with
  | none => (s, none)
  | some u =>
    let u2 := mergeUser u p
    ({ s with users := tset s.users id u2 }, some u2)

/-- MemStorage.deleteUser (Map.delete result). -/
def deleteUser (s : Store) (id : Nat) : Store × Bool :=
  if thas s.users id then ({ s with users := tdel s.users id }, true)
  else (s, false)

/-- MemStorage.getArticle. -/
def getArticle (s : Store) (id : Nat) : Option Article :=
  tget s.articles id

/-- The article row literal built inside MemStorage.createArticle (the ??
fallbacks of the source map absent and null alike to null, which the Option
fields already conflate). -/
def memMkArticle (id t : Nat) (ia : InsertArticle) : Article :=
  { id := id
    articleNumber := ia.articleNumber
    description := ia.description
    length := ia.length
    location := ia.location
    inventoryCount := ia.inventoryCount
    notes := ia.notes
    isInventoried := ia.isInventoried.getD false
    lastInventoriedBy := ia.lastInventoriedBy
    lastInventoriedAt := none
    createdAt := some t }

/-- MemStorage.createArticle. -/
def createArticle (s : Store) (ia : InsertArticle) : Store × Article :=
  let id := s.nextId
  let a := memMkArticle id s.now ia
  ({ s with articles := tset s.articles id a, nextId := s.nextId + 1 }, a)

/-- MemStorage.createArticles (Promise.all over a synchronous map runs the
inserts one after the other in list order). -/
def createArticles (s : Store) : List InsertArticle → Store × List Article
  | [] => (s, [])
  | ia :: ias =>
    let (s1, a) := createArticle s ia
    let (s2, rest) := createArticles s1 ias
    (s2, a :: rest)

/-- MemStorage.updateArticle. -/
def updateArticle (s : Store) (id : Nat) (p : ArticlePatch) :
    Store × Option Article :=
  match tget s.articles id with
  | none => (s, none)
  | some a =>
    let a2 := mergeArticle a p
    ({ s with articles := tset s.articles id a2 }, some a2)

/-- MemStorage.deleteAllArticles of server/storage.ts in its current form
(the version exported next to DatabaseStorage): the cascade comment makes it
clear all inventory counts for the deleted articles, then the articles. -/
def deleteAllArticles (s : Store) : Store :=
  { s with inventoryCounts := [], articles := [] }

/-- MemStorage.getOrderLine. -/
def getOrderLine (s : Store) (id : Nat) : Option OrderLine :=
  tget s.orderLines id

/-- The order line row literal built inside MemStorage.createOrderLine
(pickStatus uses the JS ||, so the empty string also falls back to the
default). -/
def memMkLine (id t : Nat) (il : InsertOrderLine) : OrderLine :=
  { id := id
    orderNumber := il.orderNumber
    articleNumber := il.articleNumber
    description := il.description
    length := il.length
    quantity := il.quantity
    pickStatus := match il.pickStatus with
                  | none => "Ej plockat"
                  | some ps => if ps = "" then "Ej plockat" else ps
    isInventoried := il.isInventoried.getD false
    inventoriedBy := il.inventoriedBy
    inventoriedAt := none
    createdAt := some t }

/-- MemStorage.createOrderLine. -/
def createOrderLine (s : Store) (il : InsertOrderLine) : Store × OrderLine :=
  let id := s.nextId
  let l := memMkLine id s.now il
  ({ s with orderLines := tset s.orderLines id l, nextId := s.nextId + 1 }, l)

/-- MemStorage.createOrderLines. -/
def createOrderLines (s : Store) : List InsertOrderLine → Store × List OrderLine
  | [] => (s, [])
  | il :: ils =>
    let (s1, l) := createOrderLine s il
    let (s2, rest) := createOrderLines s1 ils
    (s2, l :: rest)

/-- MemStorage.updateOrderLine. -/
def updateOrderLine (s : Store) (id : Nat) (p : OrderLinePatch) :
    Store × Option OrderLine :=
  match tget s.orderLines id with
  | none => (s, none)
  | some l =>
    let l2 := mergeOrderLine l p
    ({ s with orderLines := tset s.orderLines id l2 }, some l2)

/-- MemStorage.deleteAllOrderLines. -/
def deleteAllOrderLines (s : Store) : Store :=
  { s with orderLines := [] }

/-- MemStorage.getAllInventoryCounts. -/
def getAllInventoryCounts (s : Store) : List InventoryCount :=
  tvalues s.inventoryCounts

/-- MemStorage.createInventoryCount. -/
def createInventoryCount (s : Store) (ic : InsertInventoryCount) :
    Store × InventoryCount :=
  let id := s.nextId
  let c : InventoryCount :=
    { id := id
      articleId := ic.articleId
      userId := ic.userId
      count := ic.count
      notes := ic.notes
      createdAt := some s.now }
  ({ s with inventoryCounts := tset s.inventoryCounts id c,
            nextId := s.nextId + 1 }, c)

/-- MemStorage.updateInventoryCount. -/
def updateInventoryCount (s : Store) (id : Nat) (p : CountPatch) :
    Store × Option InventoryCount :=
  match tget s.inventoryCounts id with
  | none => (s, none)
  | some c =>
    let c2 := mergeCount c p
    ({ s with inventoryCounts := tset s.inventoryCounts id c2 }, some c2)

/-- MemStorage.deleteInventoryCount (Map.delete result). -/
def deleteInventoryCount (s : Store) (id : Nat) : Store × Bool :=
  if thas s.inventoryCounts id then
    ({ s with inventoryCounts := tdel s.inventoryCounts id }, true)
  else (s, false)

/-- MemStorage.clearAllData. -/
def clearAllData (s : Store) : Store :=
  { s with articles := [], orderLines := [], inventoryCounts := [] }

/-! ### Change events and handler traces (server/routes.ts) -/

/-- The data field of a broadcast message. dundef models a JS undefined or
absent data field (the data_cleared message has no data key). -/
inductive EventData where
  | duser : User → EventData
  | dident : Nat → EventData
  | darticle : Article → EventData
  | darticles : List Article → EventData
  | dcount : InventoryCount → EventData
  | dcountDeleted : Nat → Nat → EventData
  | dline : OrderLine → EventData
  | dlines : List OrderLine → EventData
  | dundef : EventData
deriving Repr, DecidableEq

/-- A websocket message as built at a broadcast call site in
server/routes.ts. -/
structure Event where
  type : String
  data : EventData
deriving Repr, DecidableEq

/-- A primitive effect of a mutation handler, in source order: an awaited
store mutation, or a call of the broadcast function. -/
inductive Action where
  | storeWrite : Action
  | sendEvent : Event → Action
deriving Repr, DecidableEq

/-- The HTTP response: status code plus the message field of the JSON body
when the handler sets one. -/
structure Response where
  status : Nat
  message : Option String
deriving Repr, DecidableEq

/-- What one handler run produces: the store afterwards, the response, and
the trace of store writes and broadcast calls in the order the code
performs them. -/
structure HandlerOut where
  store : Store
  resp : Response
  trace : List Action
deriving Repr, DecidableEq

/-- The data argument at a broadcast site that passes the result of an
update, which is an Option in the store signature. -/
def articleEventData : Option Article → EventData
  | some a => EventData.darticle a
  | none => EventData.dundef

/-- Same for order lines. -/
def lineEventData : Option OrderLine → EventData
  | some l => EventData.dline l
  | none => EventData.dundef

/-- Same for inventory counts. -/
def countEventData : Option InventoryCount → EventData
  | some c => EventData.dcount c
  | none => EventData.dundef

/-- PATCH /api/users/:id. -/
def patchUserRoute (s : Store) (id : Nat) (body : Option UserPatch) : HandlerOut :=
  match body with
  | none => ⟨s, ⟨400, some "Invalid user data"⟩, []⟩
  | some p =>
    match updateUser s id p with
    | (s1, none) => ⟨s1, ⟨404, some "User not found"⟩, []⟩
    | (s1, some u) =>
      ⟨s1, ⟨200, none⟩,
        [Action.storeWrite, Action.sendEvent ⟨"user_updated", EventData.duser u⟩]⟩

/-- One spreadsheet row after the row-mapping in the article import handler
(String coercions with || fallbacks applied). -/
structure ArticleImportRow where
  articleNumber : String
  description : String
  length : String
  location : String
deriving Repr, DecidableEq

/-- The object literal the import handler builds from a mapped row. -/
def ArticleImportRow.toInsert (r : ArticleImportRow) : InsertArticle :=
  ⟨r.articleNumber, r.description, r.length, r.location, none, none, none, none⟩

/-- POST /api/articles/import. file = none models a request without an
uploaded file; some (Except.error ()) models the xlsx read or parse
throwing inside the try block; some (Except.ok rows) carries the mapped
rows. -/
def postArticlesImport (s : Store)
    (file : Option (Except Unit (List ArticleImportRow))) : HandlerOut :=
  match file with
  | none => ⟨s, ⟨400, some "No file uploaded"⟩, []⟩
  | some (Except.error _) => ⟨s, ⟨500, some "Failed to import articles"⟩, []⟩
  | some (Except.ok rows) =>
    let s1 := deleteAllArticles s
    let r := createArticles s1 (rows.map ArticleImportRow.toInsert)
    ⟨r.1, ⟨200, none⟩,
      [Action.storeWrite, Action.storeWrite,
       Action.sendEvent ⟨"articles_imported", EventData.darticles r.2⟩]⟩

/-- PATCH /api/articles/:id: no schema validation, req.body is handed to
storage.updateArticle as-is. -/
def patchArticleRoute (s : Store) (id : Nat) (body : ArticlePatch) : HandlerOut :=
  match getArticle s id with
  | none => ⟨s, ⟨404, some "Article not found"⟩, []⟩
  | some _ =>
    let r := updateArticle s id body
    ⟨r.1, ⟨200, none⟩,
      [Action.storeWrite,
       Action.sendEvent ⟨"article_updated", articleEventData r.2⟩]⟩

/-- Payload accepted by updateArticleInventorySchema. -/
structure UpdateArticleInventory where
  inventoryCount : Int
  notes : Option String
  userId : Nat
deriving Repr, DecidableEq

/-- Payload accepted by updateInventoryCountSchema (count optional
nonnegative, notes optional nullable); the handler then filters out
undefined values, so absent keys stay absent. -/
structure CountBody where
  count : Option Int
  notes : Option (Option String)
deriving Repr, DecidableEq

/-- The Partial the PATCH /api/inventory-counts/:id handler passes to
storage.updateInventoryCount. -/
def CountBody.toPatch (b : CountBody) : CountPatch :=
  ⟨none, none, none, b.count, b.notes, none⟩

/-- One spreadsheet row after the row-mapping in the order-line import
handler (the position column is not part of the order_lines schema type and
is dropped; pickStatus already has its string default applied by the
mapping). -/
structure OrderLineImportRow where
  orderNumber : String
  articleNumber : String
  description : String
  length : String
  quantity : Int
  pickStatus : String
deriving Repr, DecidableEq

/-- The object literal the import handler builds from a mapped row. -/
def OrderLineImportRow.toInsert (r : OrderLineImportRow) : InsertOrderLine :=
  ⟨r.orderNumber, r.articleNumber, r.description, r.length, r.quantity,
   some r.pickStatus, none, none⟩

/-- POST /api/order-lines/import. -/
def postOrderLinesImport (s : Store)
    (file : Option (Except Unit (List OrderLineImportRow))) : HandlerOut :=
  match file with
  | none => ⟨s, ⟨400, some "No file uploaded"⟩, []⟩
  | some (Except.error _) => ⟨s, ⟨500, some "Failed to import order lines"⟩, []⟩
  | some (Except.ok rows) =>
    let s1 := deleteAllOrderLines s
    let r := createOrderLines s1 (rows.map OrderLineImportRow.toInsert)
    ⟨r.1, ⟨200, none⟩,
      [Action.storeWrite, Action.storeWrite,
       Action.sendEvent ⟨"order_lines_imported", EventData.dlines r.2⟩]⟩

/-- The Partial the order-line inventory handler passes to
storage.updateOrderLine. -/
def inventoryPatch (uid t : Nat) : OrderLinePatch :=
  ⟨none, none, none, none, none, none, none, some true,
   some (some uid), some (some t), none⟩

/-- POST /api/order-lines/:id/inventory. userId = none models a missing or
falsy userId in the body. -/
def postOrderLineInventory (s : Store) (id : Nat) (userId : Option Nat) :
    HandlerOut :=
  match userId with
  | none => ⟨s, ⟨400, some "User ID required"⟩, []⟩
  | some uid =>
    match getOrderLine s id with
    | none => ⟨s, ⟨404, some "Order line not found"⟩, []⟩
    | some line =>
      if line.pickStatus ≠ "Plockat" then
        ⟨s, ⟨400, some "Endast plockade orderrader kan inventeras"⟩, []⟩
      else
        let r := updateOrderLine s id (inventoryPatch uid s.now)
        ⟨r.1, ⟨200, none⟩,
          [Action.storeWrite,
           Action.sendEvent ⟨"order_line_inventoried", lineEventData r.2⟩]⟩

/-- POST /api/admin/clear-data. -/
def postAdminClearData (s : Store) (password : String) : HandlerOut :=
  if password ≠ "admin123" then
    ⟨s, ⟨401, some "Felaktigt lösenord"⟩, []⟩
  else
    let s1 := clearAllData s
    ⟨s1, ⟨200, some "Databasen har tömts"⟩,
      [Action.storeWrite, Action.sendEvent ⟨"data_cleared", EventData.dundef⟩]⟩


/-! ### The websocket fan-out (broadcast in server/routes.ts) -/

/-- The ws readyState constants. -/
inductive ReadyState where
  | CONNECTING
  | OPEN
  | CLOSING
  | CLOSED
deriving Repr, DecidableEq

/-- One entry of wss.clients at broadcast time. sendFails models
client.send throwing synchronously for this session; inbox is the sequence
of serialized frames the session has been handed, oldest first. -/
structure Session where
  sid : Nat
  readyState : ReadyState
  sendFails : Bool
  inbox : List String
deriving Repr, DecidableEq

/-- Deterministic rendering of an optional value, for the serializer. -/
def renderOpt {α : Type} (f : α → String) : Option α → String
  | none => "null"
  | some a => f a

/-- Rendering of a user record. -/
def renderUser (u : User) : String :=
  "user(" ++ toString u.id ++ "," ++ u.name ++ "," ++ u.role ++ ","
    ++ renderOpt id u.email ++ "," ++ toString u.isActive ++ ","
    ++ renderOpt toString u.lastActive ++ ")"

/-- Rendering of an article record. -/
def renderArticle (a : Article) : String :=
  "article(" ++ toString a.id ++ "," ++ a.articleNumber ++ ","
    ++ a.description ++ "," ++ a.length ++ "," ++ a.location ++ ","
    ++ renderOpt toString a.inventoryCount ++ "," ++ renderOpt id a.notes ++ ","
    ++ toString a.isInventoried ++ ","
    ++ renderOpt toString a.lastInventoriedBy ++ ","
    ++ renderOpt toString a.lastInventoriedAt ++ ","
    ++ renderOpt toString a.createdAt ++ ")"

/-- Rendering of an order line record. -/
def renderLine (l : OrderLine) : String :=
  "orderLine(" ++ toString l.id ++ "," ++ l.orderNumber ++ ","
    ++ l.articleNumber ++ "," ++ l.description ++ "," ++ l.length ++ ","
    ++ toString l.quantity ++ "," ++ l.pickStatus ++ ","
    ++ toString l.isInventoried ++ ","
    ++ renderOpt toString l.inventoriedBy ++ ","
    ++ renderOpt toString l.inventoriedAt ++ ","
    ++ renderOpt toString l.createdAt ++ ")"

/-- Rendering of an inventory count record. -/
def renderCount (c : InventoryCount) : String :=
  "count(" ++ toString c.id ++ "," ++ toString c.articleId ++ ","
    ++ toString c.userId ++ "," ++ toString c.count ++ ","
    ++ renderOpt id c.notes ++ "," ++ renderOpt toString c.createdAt ++ ")"

/-- Rendering of a list of records. -/
def renderList {α : Type} (f : α → String) (l : List α) : String :=
  "[" ++ String.intercalate "," (l.map f) ++ "]"

/-- Rendering of the data field. -/
def EventData.render : EventData → String
  | EventData.duser u => renderUser u
  | EventData.dident n => "ident(" ++ toString n ++ ")"
  | EventData.darticle a => renderArticle a
  | EventData.darticles l => renderList renderArticle l
  | EventData.dcount c => renderCount c
  | EventData.dcountDeleted i a =>
      "countDeleted(" ++ toString i ++ "," ++ toString a ++ ")"
  | EventData.dline l => renderLine l
  | EventData.dlines l => renderList renderLine l
  | EventData.dundef => "undefined"

/-- JSON.stringify of a broadcast message, modelled as a deterministic
rendering of the event (the exact concrete syntax is immaterial to the
claims; what matters is that the same event always yields the same
string). -/
def serialize (e : Event) : String :=
  "msg(type:" ++ e.type ++ ",data:" ++ e.data.render ++ ")"

/-- What one run of the broadcast function produces: the sessions
afterwards (wss.clients is not mutated by broadcast, only the sessions'
delivered frames change), whether a send threw out of the forEach, and how
many times JSON.stringify ran. -/
structure BroadcastResult where
  clients : List Session
  threw : Bool
  stringifyCalls : Nat
deriving Repr, DecidableEq

/-- The broadcast function of server/routes.ts: forEach over wss.clients;
for each session whose readyState is OPEN the message is stringified and
sent. There is no try/catch, so a throwing send aborts the forEach: the
throwing session and every later session receive nothing, and no session is
removed. JSON.stringify runs before the throwing send, so it is counted for
the failing session too. -/
def broadcastRun (e : Event) : List Session → BroadcastResult
  | [] => ⟨[], false, 0⟩
  | c :: rest =>
    if c.readyState = ReadyState.OPEN then
      if c.sendFails then ⟨c :: rest, true, 1⟩
      else
        let r := broadcastRun e rest
        ⟨{ c with inbox := c.inbox ++ [serialize e] } :: r.clients,
          r.threw, r.stringifyCalls + 1⟩
    else
      let r := broadcastRun e rest
      ⟨c :: r.clients, r.threw, r.stringifyCalls⟩

/-! ### The client invalidation layer (client/src/pages/home.tsx) -/

/-- The cache keys invalidated by handleWebSocketMessage for one incoming
message type: the switch statement of home.tsx, with its fall-through case
groups; message types without a case invalidate nothing. -/
def invalidationKeys (t : String) : List String :=
  if t = "article_created" ∨ t = "article_updated" ∨ t = "article_inventoried"
      ∨ t = "articles_imported" then
    ["/api/articles"]
  else if t = "inventory_count_created" ∨ t = "inventory_count_updated"
      ∨ t = "inventory_count_deleted" then
    ["/api/inventory-counts"]
  else if t = "order_line_created" ∨ t = "order_line_inventoried"
      ∨ t = "order_lines_imported" then
    ["/api/order-lines"]
  else if t = "user_created" then
    ["/api/users"]
  else
    []

/-- Every message type that appears at a broadcast call site in
server/routes.ts. -/
def serverEventTypes : List String :=
  ["user_created", "user_updated", "user_deleted",
   "article_created", "articles_imported", "article_updated",
   "inventory_count_created", "inventory_count_updated",
   "inventory_count_deleted",
   "order_line_created", "order_lines_imported", "order_line_inventoried",
   "data_cleared"]

/-! ### The SQLite-backed store (DatabaseStorage of server/storage.ts)

server/db.ts turns foreign_keys ON, and shared/schema.ts declares
inventory_counts.article_id REFERENCES articles(id) ON DELETE CASCADE, and
user_id REFERENCES users(id). Tables are modelled as row lists; a statement
that violates a constraint throws and leaves the database unchanged.
Row ids for inserts (randomUUID in the source) are parameters of the
operation; a primary-key collision makes the insert fail. User rows are
never referenced by the invariant below, so the engine checks that only
restrict operations on users (rejecting updates or deletes of a referenced
user) are not modelled: leaving them out only admits more operation
sequences. -/

/-- The database state. -/
structure DB where
  dbUsers : List User
  dbArticles : List Article
  dbOrderLines : List OrderLine
  dbCounts : List InventoryCount
deriving Repr, DecidableEq

/-- The empty database (the state right after table creation). -/
def DB.empty : DB := ⟨[], [], [], []⟩

/-- Row built by DatabaseStorage.createUser (column defaults of
shared/schema.ts applied for absent values). -/
def dbMkUser (id t : Nat) (iu : InsertUser) : User :=
  { id := id
    name := iu.name
    role := iu.role.getD "Lagerarbetare"
    email := iu.email
    isActive := iu.isActive.getD true
    lastActive := some t }

/-- Row built by DatabaseStorage.createArticle. -/
def dbMkArticle (id t : Nat) (ia : InsertArticle) : Article :=
  { id := id
    articleNumber := ia.articleNumber
    description := ia.description
    length := ia.length
    location := ia.location
    inventoryCount := ia.inventoryCount
    notes := ia.notes
    isInventoried := ia.isInventoried.getD false
    lastInventoriedBy := ia.lastInventoriedBy
    lastInventoriedAt := none
    createdAt := some t }

/-- Row built by DatabaseStorage.createOrderLine. -/
def dbMkLine (id t : Nat) (il : InsertOrderLine) : OrderLine :=
  { id := id
    orderNumber := il.orderNumber
    articleNumber := il.articleNumber
    description := il.description
    length := il.length
    quantity := il.quantity
    pickStatus := il.pickStatus.getD "Ej plockat"
    isInventoried := il.isInventoried.getD false
    inventoriedBy := il.inventoriedBy
    inventoriedAt := none
    createdAt := some t }

/-- Row built by DatabaseStorage.createInventoryCount. -/
def dbMkCount (id t : Nat) (ic : InsertInventoryCount) : InventoryCount :=
  { id := id
    articleId := ic.articleId
    userId := ic.userId
    count := ic.count
    notes := ic.notes
    createdAt := some t }

/-- One call of a DatabaseStorage mutation, with the ids randomUUID
produced and the clock value for createdAt / lastActive columns. -/
inductive DBOp where
  | opCreateUser (id t : Nat) (iu : InsertUser)
  | opUpdateUser (id : Nat) (p : UserPatch)
  | opDeleteUser (id : Nat)
  | opCreateArticle (id t : Nat) (ia : InsertArticle)
  | opCreateArticles (t : Nat) (rows : List (Nat × InsertArticle))
  | opUpdateArticle (id : Nat) (p : ArticlePatch)
  | opDeleteAllArticles
  | opCreateOrderLine (id t : Nat) (il : InsertOrderLine)
  | opCreateOrderLines (t : Nat) (rows : List (Nat × InsertOrderLine))
  | opUpdateOrderLine (id : Nat) (p : OrderLinePatch)
  | opDeleteAllOrderLines
  | opCreateInventoryCount (id t : Nat) (ic : InsertInventoryCount)
  | opUpdateInventoryCount (id : Nat) (p : CountPatch)
  | opDeleteInventoryCount (id : Nat)
  | opClearAllData

/-- Whether an article insert violates the primary key or the UNIQUE
constraint on article_number. -/
def articleInsertClash (arts : List Article) (id : Nat) (ia : InsertArticle) : Bool :=
  arts.any (fun a => a.id == id) || arts.any (fun a => a.articleNumber == ia.articleNumber)

/-- Whether a batch article insert (one INSERT statement, atomic) violates
a constraint against the existing rows or within the batch. -/
def articleBatchClash (arts : List Article) : List (Nat × InsertArticle) → Bool
  | [] => false
  | (id, ia) :: rest =>
    articleInsertClash arts id ia
      || rest.any (fun r => r.1 == id || r.2.articleNumber == ia.articleNumber)
      || articleBatchClash arts rest

/-- The batch rows appended by a successful batch article insert. -/
def articleBatchRows (t : Nat) (rows : List (Nat × InsertArticle)) : List Article :=
  rows.map (fun r => dbMkArticle r.1 t r.2)

/-- Effect of one DatabaseStorage call on the database, with the SQLite
constraint behaviour of this deployment: a violating statement leaves the
state unchanged. -/
def applyOp : DBOp → DB → DB
  | DBOp.opCreateUser id t iu, db =>
    if db.dbUsers.any (fun u => u.id == id) then db
    else { db with dbUsers := db.dbUsers ++ [dbMkUser id t iu] }
  | DBOp.opUpdateUser id p, db =>
    { db with dbUsers := db.dbUsers.map (fun u => if u.id == id then mergeUser u p else u) }
  | DBOp.opDeleteUser id, db =>
    { db with dbUsers := db.dbUsers.filter (fun u => ! (u.id == id)) }
  | DBOp.opCreateArticle id t ia, db =>
    if articleInsertClash db.dbArticles id ia then db
    else { db with dbArticles := db.dbArticles ++ [dbMkArticle id t ia] }
  | DBOp.opCreateArticles t rows, db =>
    if articleBatchClash db.dbArticles rows then db
    else { db with dbArticles := db.dbArticles ++ articleBatchRows t rows }
  | DBOp.opUpdateArticle id p, db =>
    match db.dbArticles.find? (fun a => a.id == id) with
    | none => db
    | some a =>
      let m := mergeArticle a p
      if m.id ≠ a.id
          ∧ (db.dbCounts.any (fun ic => ic.articleId == a.id)
             ∨ db.dbArticles.any (fun b => b.id == m.id)) then db
      else { db with dbArticles := db.dbArticles.map (fun b => if b.id == id then m else b) }
  | DBOp.opDeleteAllArticles, db =>
    { db with
      dbCounts := db.dbCounts.filter
        (fun ic => ! db.dbArticles.any (fun a => a.id == ic.articleId))
      dbArticles := [] }
  | DBOp.opCreateOrderLine id t il, db =>
    if db.dbOrderLines.any (fun l => l.id == id) then db
    else { db with dbOrderLines := db.dbOrderLines ++ [dbMkLine id t il] }
  | DBOp.opCreateOrderLines t rows, db =>
    if rows.any (fun r => db.dbOrderLines.any (fun l => l.id == r.1)) then db
    else { db with dbOrderLines := db.dbOrderLines ++ rows.map (fun r => dbMkLine r.1 t r.2) }
  | DBOp.opUpdateOrderLine id p, db =>
    { db with dbOrderLines :=
        db.dbOrderLines.map (fun l => if l.id == id then mergeOrderLine l p else l) }
  | DBOp.opDeleteAllOrderLines, db =>
    { db with dbOrderLines := [] }
  | DBOp.opCreateInventoryCount id t ic, db =>
    if db.dbCounts.any (fun c => c.id == id)
        || ! db.dbArticles.any (fun a => a.id == ic.articleId)
        || ! db.dbUsers.any (fun u => u.id == ic.userId) then db
    else { db with dbCounts := db.dbCounts ++ [dbMkCount id t ic] }
  | DBOp.opUpdateInventoryCount id p, db =>
    match db.dbCounts.find? (fun c => c.id == id) with
    | none => db
    | some c =>
      let m := mergeCount c p
      if (! db.dbArticles.any (fun a => a.id == m.articleId))
          || (! db.dbUsers.any (fun u => u.id == m.userId))
          || (decide (m.id ≠ c.id) && db.dbCounts.any (fun d => d.id == m.id)) then db
      else { db with dbCounts := db.dbCounts.map (fun d => if d.id == id then m else d) }
  | DBOp.opDeleteInventoryCount id, db =>
    { db with dbCounts := db.dbCounts.filter (fun c => ! (c.id == id)) }
  | DBOp.opClearAllData, db =>
    { db with dbCounts := [], dbOrderLines := [], dbArticles := [] }

/-- Effect of a sequence of DatabaseStorage calls, first call first. -/
def applyOps : List DBOp → DB → DB
  | [], db => db
  | op :: ops, db => applyOps ops (applyOp op db)

/-- Referential integrity of the inventory_counts table: every count row
references an article row that is present. -/
def refIntactB (db : DB) : Bool :=
  db.dbCounts.all (fun ic => db.dbArticles.any (fun a => a.id == ic.articleId))

/-! ### Fallible DatabaseStorage operations

The storage instance the routes use is the DatabaseStorage: its SQLite
statements can throw — UNIQUE and FOREIGN KEY violations (foreign_keys is
ON), and drizzle's update throws on an empty set object. A throwing
statement is Except.error () and leaves the database unchanged. -/

/-- Whether an optional user reference satisfies its
REFERENCES users(id) constraint. -/
def userFkOk (us : List User) : Option Nat → Bool
  | none => true
  | some uid => us.any (fun u => u.id == uid)

/-- Whether a user patch sets no column (drizzle's update then throws). -/
def UserPatch.isEmpty (p : UserPatch) : Bool :=
  p.name.isNone && p.role.isNone && p.email.isNone && p.isActive.isNone

/-- Whether an article patch sets no column. -/
def ArticlePatch.isEmpty (p : ArticlePatch) : Bool :=
  p.id.isNone && p.articleNumber.isNone && p.description.isNone
    && p.length.isNone && p.location.isNone && p.inventoryCount.isNone
    && p.notes.isNone && p.isInventoried.isNone && p.lastInventoriedBy.isNone
    && p.lastInventoriedAt.isNone && p.createdAt.isNone

/-- Whether an order line patch sets no column. -/
def OrderLinePatch.isEmpty (p : OrderLinePatch) : Bool :=
  p.id.isNone && p.orderNumber.isNone && p.articleNumber.isNone
    && p.description.isNone && p.length.isNone && p.quantity.isNone
    && p.pickStatus.isNone && p.isInventoried.isNone && p.inventoriedBy.isNone
    && p.inventoriedAt.isNone && p.createdAt.isNone

/-- Whether a count patch sets no column. -/
def CountPatch.isEmpty (p : CountPatch) : Bool :=
  p.id.isNone && p.articleId.isNone && p.userId.isNone && p.count.isNone
    && p.notes.isNone && p.createdAt.isNone

/-- DatabaseStorage.createUser (fails on a primary key collision). -/
def dbCreateUser (id t : Nat) (iu : InsertUser) (db : DB) :
    Except Unit (DB × User) :=
  if db.dbUsers.any (fun u => u.id == id) then Except.error ()
  else
    Except.ok ({ db with dbUsers := db.dbUsers ++ [dbMkUser id t iu] },
      dbMkUser id t iu)

/-- DatabaseStorage.updateUser: throws on an empty set object; otherwise
updates the matching row and returns it (none when no row matches). -/
def dbUpdateUser (id : Nat) (p : UserPatch) (db : DB) :
    Except Unit (DB × Option User) :=
  if p.isEmpty then Except.error ()
  else
    match db.dbUsers.find? (fun u => u.id == id) with
    | none => Except.ok (db, none)
    | some u =>
      Except.ok ({ db with dbUsers :=
          (db.dbUsers.map (fun x => if x.id == id then mergeUser x p else x)) },
        some (mergeUser u p))

/-- Whether any stored row references this user id
(inventory_counts.user_id, order_lines.inventoried_by,
articles.last_inventoried_by — none of these cascade). -/
def userReferenced (db : DB) (id : Nat) : Bool :=
  db.dbCounts.any (fun c => c.userId == id)
    || db.dbOrderLines.any (fun l => l.inventoriedBy == some id)
    || db.dbArticles.any (fun a => a.lastInventoriedBy == some id)

/-- DatabaseStorage.deleteUser: with foreign_keys ON, deleting a still
referenced user row throws; deleting a missing id affects no row and
returns false. -/
def dbDeleteUser (id : Nat) (db : DB) : Except Unit (DB × Bool) :=
  if db.dbUsers.any (fun u => u.id == id) then
    if userReferenced db id then Except.error ()
    else
      Except.ok ({ db with dbUsers :=
          (db.dbUsers.filter (fun u => ! (u.id == id))) }, true)
  else Except.ok (db, false)

/-- DatabaseStorage.getArticle (SELECT ... WHERE id). -/
def dbGetArticle (id : Nat) (db : DB) : Option Article :=
  db.dbArticles.find? (fun a => a.id == id)

/-- DatabaseStorage.createArticle (fails on a duplicate id or
article_number, or a dangling last_inventoried_by reference). -/
def dbCreateArticle (id t : Nat) (ia : InsertArticle) (db : DB) :
    Except Unit (DB × Article) :=
  if articleInsertClash db.dbArticles id ia
      || ! userFkOk db.dbUsers ia.lastInventoriedBy then Except.error ()
  else
    Except.ok ({ db with dbArticles := db.dbArticles ++ [dbMkArticle id t ia] },
      dbMkArticle id t ia)

/-- DatabaseStorage.createArticles: one INSERT statement, atomic — any
duplicate or dangling reference fails the whole batch. -/
def dbCreateArticles (t : Nat) (rows : List (Nat × InsertArticle)) (db : DB) :
    Except Unit (DB × List Article) :=
  if articleBatchClash db.dbArticles rows
      || rows.any (fun r => ! userFkOk db.dbUsers r.2.lastInventoriedBy) then
    Except.error ()
  else
    Except.ok ({ db with dbArticles := db.dbArticles ++ articleBatchRows t rows },
      articleBatchRows t rows)

/-- DatabaseStorage.updateArticle: throws on an empty set object or on a
violated constraint — a changed id that is still referenced by a count or
collides with another row, a duplicate article_number, or a dangling
last_inventoried_by reference. -/
def dbUpdateArticle (id : Nat) (p : ArticlePatch) (db : DB) :
    Except Unit (DB × Option Article) :=
  if p.isEmpty then Except.error ()
  else
    match db.dbArticles.find? (fun a => a.id == id) with
    | none => Except.ok (db, none)
    | some a =>
      if (decide ((mergeArticle a p).id ≠ a.id)
            && (db.dbCounts.any (fun c => c.articleId == a.id)
                || db.dbArticles.any (fun b => b.id == (mergeArticle a p).id)))
          || db.dbArticles.any (fun b =>
              ! (b.id == a.id) && b.articleNumber == (mergeArticle a p).articleNumber)
          || ! userFkOk db.dbUsers (mergeArticle a p).lastInventoriedBy then
        Except.error ()
      else
        Except.ok ({ db with dbArticles :=
            (db.dbArticles.map (fun b => if b.id == id then mergeArticle b p else b)) },
          some (mergeArticle a p))

/-- DatabaseStorage.deleteAllArticles: DELETE FROM articles; the ON DELETE
CASCADE on inventory_counts.article_id removes every count of a deleted
article. -/
def dbDeleteAllArticles (db : DB) : DB :=
  { db with
    dbCounts := db.dbCounts.filter
      (fun ic => ! db.dbArticles.any (fun a => a.id == ic.articleId))
    dbArticles := [] }

/-- DatabaseStorage.getOrderLine (SELECT ... WHERE id). -/
def dbGetOrderLine (id : Nat) (db : DB) : Option OrderLine :=
  db.dbOrderLines.find? (fun l => l.id == id)

/-- DatabaseStorage.createOrderLine (fails on a duplicate id or a dangling
inventoried_by reference). -/
def dbCreateOrderLine (id t : Nat) (il : InsertOrderLine) (db : DB) :
    Except Unit (DB × OrderLine) :=
  if db.dbOrderLines.any (fun l => l.id == id)
      || ! userFkOk db.dbUsers il.inventoriedBy then Except.error ()
  else
    Except.ok ({ db with dbOrderLines := db.dbOrderLines ++ [dbMkLine id t il] },
      dbMkLine id t il)

/-- Duplicate id check for the batch order line insert. -/
def lineBatchClash (ls : List OrderLine) : List (Nat × InsertOrderLine) → Bool
  | [] => false
  | (id, _) :: rest =>
    ls.any (fun l => l.id == id) || rest.any (fun r => r.1 == id)
      || lineBatchClash ls rest

/-- DatabaseStorage.createOrderLines: one INSERT statement, atomic. -/
def dbCreateOrderLines (t : Nat) (rows : List (Nat × InsertOrderLine)) (db : DB) :
    Except Unit (DB × List OrderLine) :=
  if lineBatchClash db.dbOrderLines rows
      || rows.any (fun r => ! userFkOk db.dbUsers r.2.inventoriedBy) then
    Except.error ()
  else
    Except.ok ({ db with dbOrderLines :=
        (db.dbOrderLines ++ rows.map (fun r => dbMkLine r.1 t r.2)) },
      rows.map (fun r => dbMkLine r.1 t r.2))

/-- DatabaseStorage.updateOrderLine: throws on an empty set object, on a
changed id that collides, or on a dangling inventoried_by reference
(inventoried_by REFERENCES users(id), enforced with foreign_keys ON). -/
def dbUpdateOrderLine (id : Nat) (p : OrderLinePatch) (db : DB) :
    Except Unit (DB × Option OrderLine) :=
  if p.isEmpty then Except.error ()
  else
    match db.dbOrderLines.find? (fun l => l.id == id) with
    | none => Except.ok (db, none)
    | some l =>
      if (decide ((mergeOrderLine l p).id ≠ l.id)
            && db.dbOrderLines.any (fun x => x.id == (mergeOrderLine l p).id))
          || ! userFkOk db.dbUsers (mergeOrderLine l p).inventoriedBy then
        Except.error ()
      else
        Except.ok ({ db with dbOrderLines :=
            (db.dbOrderLines.map (fun x => if x.id == id then mergeOrderLine x p else x)) },
          some (mergeOrderLine l p))

/-- DatabaseStorage.deleteAllOrderLines. -/
def dbDeleteAllOrderLines (db : DB) : DB :=
  { db with dbOrderLines := [] }

/-- DatabaseStorage.createInventoryCount: both foreign keys checked by the
engine. -/
def dbCreateInventoryCount (id t : Nat) (ic : InsertInventoryCount) (db : DB) :
    Except Unit (DB × InventoryCount) :=
  if db.dbCounts.any (fun c => c.id == id)
      || ! db.dbArticles.any (fun a => a.id == ic.articleId)
      || ! db.dbUsers.any (fun u => u.id == ic.userId) then Except.error ()
  else
    Except.ok ({ db with dbCounts := db.dbCounts ++ [dbMkCount id t ic] },
      dbMkCount id t ic)

/-- DatabaseStorage.updateInventoryCount: throws on an empty set object or
on a violated constraint. -/
def dbUpdateInventoryCount (id : Nat) (p : CountPatch) (db : DB) :
    Except Unit (DB × Option InventoryCount) :=
  if p.isEmpty then Except.error ()
  else
    match db.dbCounts.find? (fun c => c.id == id) with
    | none => Except.ok (db, none)
    | some c =>
      if (! db.dbArticles.any (fun a => a.id == (mergeCount c p).articleId))
          || (! db.dbUsers.any (fun u => u.id == (mergeCount c p).userId))
          || (decide ((mergeCount c p).id ≠ c.id)
              && db.dbCounts.any (fun d => d.id == (mergeCount c p).id)) then
        Except.error ()
      else
        Except.ok ({ db with dbCounts :=
            (db.dbCounts.map (fun d => if d.id == id then mergeCount d p else d)) },
          some (mergeCount c p))

/-- DatabaseStorage.deleteInventoryCount: nothing references counts, so the
delete cannot throw; the Bool is whether a row was deleted. -/
def dbDeleteInventoryCount (id : Nat) (db : DB) : DB × Bool :=
  if db.dbCounts.any (fun c => c.id == id) then
    ({ db with dbCounts := db.dbCounts.filter (fun c => ! (c.id == id)) }, true)
  else (db, false)

/-- DatabaseStorage.clearAllData (counts, order lines, then articles: a
foreign-key-safe order, so it cannot throw). -/
def dbClearAllData (db : DB) : DB :=
  { db with dbCounts := [], dbOrderLines := [], dbArticles := [] }

/-! ### Route handlers against the SQLite-backed store

The non-import handlers of server/routes.ts are async functions without
try/catch: when a store statement throws, the rejection is never handled
and no response is sent for that request at all — resp = none. The import
handlers wrap their store calls in try/catch and respond 500. -/

/-- Handler outcome against DatabaseStorage: resp = none means a store
statement threw and no response was sent. -/
structure DbHandlerOut where
  db : DB
  resp : Option Response
  trace : List Action
deriving Repr, DecidableEq

/-- POST /api/users against DatabaseStorage (rid, t model randomUUID and
the clock). -/
def dbPostUsers (rid t : Nat) (body : Option InsertUser) (db : DB) :
    DbHandlerOut :=
  match body with
  | none => ⟨db, some ⟨400, some "Invalid user data"⟩, []⟩
  | some iu =>
    match dbCreateUser rid t iu db with
    | Except.error _ => ⟨db, none, []⟩
    | Except.ok (db1, u) =>
      ⟨db1, some ⟨200, none⟩,
        [Action.storeWrite,
         Action.sendEvent ⟨"user_created", EventData.duser u⟩]⟩

/-- PATCH /api/users/:id against DatabaseStorage. -/
def dbPatchUser (id : Nat) (body : Option UserPatch) (db : DB) :
    DbHandlerOut :=
  match body with
  | none => ⟨db, some ⟨400, some "Invalid user data"⟩, []⟩
  | some p =>
    match dbUpdateUser id p db with
    | Except.error _ => ⟨db, none, []⟩
    | Except.ok (db1, none) => ⟨db1, some ⟨404, some "User not found"⟩, []⟩
    | Except.ok (db1, some u) =>
      ⟨db1, some ⟨200, none⟩,
        [Action.storeWrite,
         Action.sendEvent ⟨"user_updated", EventData.duser u⟩]⟩

/-- DELETE /api/users/:id against DatabaseStorage. -/
def dbDeleteUserRoute (id : Nat) (db : DB) : DbHandlerOut :=
  match dbDeleteUser id db with
  | Except.error _ => ⟨db, none, []⟩
  | Except.ok (db1, false) => ⟨db1, some ⟨404, some "User not found"⟩, []⟩
  | Except.ok (db1, true) =>
    ⟨db1, some ⟨200, none⟩,
      [Action.storeWrite,
       Action.sendEvent ⟨"user_deleted", EventData.dident id⟩]⟩

/-- POST /api/articles against DatabaseStorage. -/
def dbPostArticles (rid t : Nat) (body : Option InsertArticle) (db : DB) :
    DbHandlerOut :=
  match body with
  | none => ⟨db, some ⟨400, some "Invalid article data"⟩, []⟩
  | some ia =>
    match dbCreateArticle rid t ia db with
    | Except.error _ => ⟨db, none, []⟩
    | Except.ok (db1, a) =>
      ⟨db1, some ⟨200, none⟩,
        [Action.storeWrite,
         Action.sendEvent ⟨"article_created", EventData.darticle a⟩]⟩

/-- POST /api/articles/import against DatabaseStorage: the try block covers
deleteAllArticles and createArticles, so a failing batch insert is caught
and answered 500 — with the delete already committed. -/
def dbPostArticlesImport (ids : List Nat) (t : Nat)
    (file : Option (Except Unit (List ArticleImportRow))) (db : DB) :
    DbHandlerOut :=
  match file with
  | none => ⟨db, some ⟨400, some "No file uploaded"⟩, []⟩
  | some (Except.error _) =>
    ⟨db, some ⟨500, some "Failed to import articles"⟩, []⟩
  | some (Except.ok rows) =>
    match dbCreateArticles t (ids.zip (rows.map ArticleImportRow.toInsert))
        (dbDeleteAllArticles db) with
    | Except.error _ =>
      ⟨dbDeleteAllArticles db, some ⟨500, some "Failed to import articles"⟩,
        [Action.storeWrite]⟩
    | Except.ok (db2, created) =>
      ⟨db2, some ⟨200, none⟩,
        [Action.storeWrite, Action.storeWrite,
         Action.sendEvent ⟨"articles_imported", EventData.darticles created⟩]⟩

/-- PATCH /api/articles/:id against DatabaseStorage: no schema validation,
req.body is handed to storage.updateArticle as-is. -/
def dbPatchArticle (id : Nat) (body : ArticlePatch) (db : DB) : DbHandlerOut :=
  match dbGetArticle id db with
  | none => ⟨db, some ⟨404, some "Article not found"⟩, []⟩
  | some _ =>
    match dbUpdateArticle id body db with
    | Except.error _ => ⟨db, none, []⟩
    | Except.ok (db1, upd) =>
      ⟨db1, some ⟨200, none⟩,
        [Action.storeWrite,
         Action.sendEvent ⟨"article_updated", articleEventData upd⟩]⟩

/-- POST /api/articles/:id/inventory against DatabaseStorage: the article
is checked first, but the user_id foreign key is only checked by the
engine. -/
def dbPostArticleInventory (rid t id : Nat)
    (body : Option UpdateArticleInventory) (db : DB) : DbHandlerOut :=
  match body with
  | none => ⟨db, some ⟨400, some "Invalid inventory data"⟩, []⟩
  | some b =>
    match dbGetArticle id db with
    | none => ⟨db, some ⟨404, some "Article not found"⟩, []⟩
    | some _ =>
      match dbCreateInventoryCount rid t
          ⟨id, b.userId, b.inventoryCount, b.notes⟩ db with
      | Except.error _ => ⟨db, none, []⟩
      | Except.ok (db1, c) =>
        ⟨db1, some ⟨200, none⟩,
          [Action.storeWrite,
           Action.sendEvent ⟨"inventory_count_created", EventData.dcount c⟩]⟩

/-- PATCH /api/inventory-counts/:id against DatabaseStorage. An empty
validated body reaches drizzle's set with no values and throws. -/
def dbPatchInventoryCount (id : Nat) (body : Option CountBody) (db : DB) :
    DbHandlerOut :=
  match body with
  | none => ⟨db, some ⟨400, some "Invalid inventory count data"⟩, []⟩
  | some b =>
    match dbUpdateInventoryCount id b.toPatch db with
    | Except.error _ => ⟨db, none, []⟩
    | Except.ok (db1, none) =>
      ⟨db1, some ⟨404, some "Inventory count not found"⟩, []⟩
    | Except.ok (db1, some c) =>
      ⟨db1, some ⟨200, none⟩,
        [Action.storeWrite,
         Action.sendEvent ⟨"inventory_count_updated", EventData.dcount c⟩]⟩

/-- DELETE /api/inventory-counts/:id against DatabaseStorage: first finds
the count among all counts to keep its articleId for the broadcast
payload, then deletes. -/
def dbDeleteInventoryCountRoute (id : Nat) (db : DB) : DbHandlerOut :=
  match db.dbCounts.find? (fun ic => ic.id == id) with
  | none => ⟨db, some ⟨404, some "Inventory count not found"⟩, []⟩
  | some ic =>
    match dbDeleteInventoryCount id db with
    | (db1, false) => ⟨db1, some ⟨404, some "Inventory count not found"⟩, []⟩
    | (db1, true) =>
      ⟨db1, some ⟨200, none⟩,
        [Action.storeWrite,
         Action.sendEvent
           ⟨"inventory_count_deleted", EventData.dcountDeleted id ic.articleId⟩]⟩

/-- POST /api/order-lines against DatabaseStorage. -/
def dbPostOrderLines (rid t : Nat) (body : Option InsertOrderLine) (db : DB) :
    DbHandlerOut :=
  match body with
  | none => ⟨db, some ⟨400, some "Invalid order line data"⟩, []⟩
  | some il =>
    match dbCreateOrderLine rid t il db with
    | Except.error _ => ⟨db, none, []⟩
    | Except.ok (db1, l) =>
      ⟨db1, some ⟨200, none⟩,
        [Action.storeWrite,
         Action.sendEvent ⟨"order_line_created", EventData.dline l⟩]⟩

/-- POST /api/order-lines/import against DatabaseStorage. -/
def dbPostOrderLinesImport (ids : List Nat) (t : Nat)
    (file : Option (Except Unit (List OrderLineImportRow))) (db : DB) :
    DbHandlerOut :=
  match file with
  | none => ⟨db, some ⟨400, some "No file uploaded"⟩, []⟩
  | some (Except.error _) =>
    ⟨db, some ⟨500, some "Failed to import order lines"⟩, []⟩
  | some (Except.ok rows) =>
    match dbCreateOrderLines t (ids.zip (rows.map OrderLineImportRow.toInsert))
        (dbDeleteAllOrderLines db) with
    | Except.error _ =>
      ⟨dbDeleteAllOrderLines db, some ⟨500, some "Failed to import order lines"⟩,
        [Action.storeWrite]⟩
    | Except.ok (db2, created) =>
      ⟨db2, some ⟨200, none⟩,
        [Action.storeWrite, Action.storeWrite,
         Action.sendEvent ⟨"order_lines_imported", EventData.dlines created⟩]⟩

/-- POST /api/order-lines/:id/inventory against DatabaseStorage: after the
pick status guard the update runs, and with foreign_keys ON a userId with
no user row makes it throw — uncaught, so no response. -/
def dbPostOrderLineInventory (t id : Nat) (userId : Option Nat) (db : DB) :
    DbHandlerOut :=
  match userId with
  | none => ⟨db, some ⟨400, some "User ID required"⟩, []⟩
  | some uid =>
    match dbGetOrderLine id db with
    | none => ⟨db, some ⟨404, some "Order line not found"⟩, []⟩
    | some line =>
      if line.pickStatus ≠ "Plockat" then
        ⟨db, some ⟨400, some "Endast plockade orderrader kan inventeras"⟩, []⟩
      else
        match dbUpdateOrderLine id (inventoryPatch uid t) db with
        | Except.error _ => ⟨db, none, []⟩
        | Except.ok (db1, upd) =>
          ⟨db1, some ⟨200, none⟩,
            [Action.storeWrite,
             Action.sendEvent ⟨"order_line_inventoried", lineEventData upd⟩]⟩

/-- The CRUD and import mutation endpoints for users, articles, order lines
and inventory counts in server/routes.ts, with the fresh ids and clock
values their store calls consume. -/
inductive DbRequest where
  | rPostUsers (rid t : Nat) (body : Option InsertUser)
  | rPatchUser (id : Nat) (body : Option UserPatch)
  | rDeleteUser (id : Nat)
  | rPostArticles (rid t : Nat) (body : Option InsertArticle)
  | rImportArticles (ids : List Nat) (t : Nat)
      (file : Option (Except Unit (List ArticleImportRow)))
  | rPatchArticle (id : Nat) (body : ArticlePatch)
  | rPostArticleInventory (rid t id : Nat) (body : Option UpdateArticleInventory)
  | rPatchInventoryCount (id : Nat) (body : Option CountBody)
  | rDeleteInventoryCount (id : Nat)
  | rPostOrderLines (rid t : Nat) (body : Option InsertOrderLine)
  | rImportOrderLines (ids : List Nat) (t : Nat)
      (file : Option (Except Unit (List OrderLineImportRow)))
  | rOrderLineInventory (t id : Nat) (userId : Option Nat)

/-- Dispatch one mutation request to its handler. -/
def dbHandle : DbRequest → DB → DbHandlerOut
  | DbRequest.rPostUsers rid t body, db => dbPostUsers rid t body db
  | DbRequest.rPatchUser id body, db => dbPatchUser id body db
  | DbRequest.rDeleteUser id, db => dbDeleteUserRoute id db
  | DbRequest.rPostArticles rid t body, db => dbPostArticles rid t body db
  | DbRequest.rImportArticles ids t file, db => dbPostArticlesImport ids t file db
  | DbRequest.rPatchArticle id body, db => dbPatchArticle id body db
  | DbRequest.rPostArticleInventory rid t id body, db =>
      dbPostArticleInventory rid t id body db
  | DbRequest.rPatchInventoryCount id body, db => dbPatchInventoryCount id body db
  | DbRequest.rDeleteInventoryCount id, db => dbDeleteInventoryCountRoute id db
  | DbRequest.rPostOrderLines rid t body, db => dbPostOrderLines rid t body db
  | DbRequest.rImportOrderLines ids t file, db =>
      dbPostOrderLinesImport ids t file db
  | DbRequest.rOrderLineInventory t id userId, db =>
      dbPostOrderLineInventory t id userId db

/-! ### Trace predicates -/

/-- Number of broadcast calls in a handler trace. -/
def countSends : List Action → Nat
  | [] => 0
  | Action.sendEvent _ :: r => countSends r + 1
  | Action.storeWrite :: r => countSends r

/-- After the leading store writes, exactly one broadcast and nothing
else. -/
def writesThenSend1 : List Action → Bool
  | [Action.sendEvent _] => true
  | Action.storeWrite :: r => writesThenSend1 r
  | _ => false

/-- The trace consists of at least one store write followed by exactly one
broadcast: the broadcast happens once and only after every store write has
completed. -/
def traceOk : List Action → Bool
  | Action.storeWrite :: r => writesThenSend1 r
  | _ => false

/-! ### Derived definitions and concrete instances used in the theorems -/

/-- The table produced by inserting freshly keyed article rows into an
empty Map, first id n. -/
def mkArticlesFrom (n t : Nat) : List InsertArticle → Table Article
  | [] => []
  | ia :: ias => (n, memMkArticle n t ia) :: mkArticlesFrom (n + 1) t ias

/-- The table produced by inserting freshly keyed order line rows into an
empty Map, first id n. -/
def mkLinesFrom (n t : Nat) : List InsertOrderLine → Table OrderLine
  | [] => []
  | il :: ils => (n, memMkLine n t il) :: mkLinesFrom (n + 1) t ils

/-- The import-relevant projection of a stored article row. -/
def articleRowOf (a : Article) : ArticleImportRow :=
  ⟨a.articleNumber, a.description, a.length, a.location⟩

/-- The import-relevant projection of a stored order line row. -/
def lineRowOf (l : OrderLine) : OrderLineImportRow :=
  ⟨l.orderNumber, l.articleNumber, l.description, l.length, l.quantity,
   l.pickStatus⟩

/-- What one broadcast does to one session when no send throws. -/
def deliverTo (e : Event) (c : Session) : Session :=
  if c.readyState = ReadyState.OPEN then
    { c with inbox := c.inbox ++ [serialize e] }
  else c

/-- Number of sessions whose transport is open. -/
def countOpen : List Session → Nat
  | [] => 0
  | c :: rest =>
    if c.readyState = ReadyState.OPEN then countOpen rest + 1 else countOpen rest

/-- A sample event for concrete broadcast runs. -/
def sampleEvent : Event := ⟨"user_deleted", EventData.dident 7⟩

/-- An open session with a working transport. -/
def openSession : Session := ⟨1, ReadyState.OPEN, false, []⟩

/-- A session whose transport is closed. -/
def closedSession : Session := ⟨2, ReadyState.CLOSED, false, []⟩

/-- An open session whose send throws. -/
def failingSession : Session := ⟨4, ReadyState.OPEN, true, []⟩

/-- An open working session registered after the failing one. -/
def lateSession : Session := ⟨5, ReadyState.OPEN, false, []⟩

/-- A database operation sequence: create a user, an article, then a count
for that article. -/
def opsSample : List DBOp :=
  [DBOp.opCreateUser 1 0 ⟨"Anna", none, none, none⟩,
   DBOp.opCreateArticle 2 0 ⟨"A1", "d", "5", "L1", none, none, none, none⟩,
   DBOp.opCreateInventoryCount 3 0 ⟨2, 1, 12, none⟩]

/-- A database with two users (ids 1 and 2) and one picked order line
(id 10). -/
def dbSeed : DB :=
  ⟨[dbMkUser 1 0 ⟨"Anna", none, none, none⟩,
    dbMkUser 2 0 ⟨"Erik", none, none, none⟩],
   [],
   [dbMkLine 10 0 ⟨"O2", "ART-2", "d", "10", 2, some "Plockat", none, none⟩],
   []⟩

/-- The picked order line stored in dbSeed. -/
def seedLine : OrderLine :=
  dbMkLine 10 0 ⟨"O2", "ART-2", "d", "10", 2, some "Plockat", none, none⟩

/-- A database holding one article with article_number A1 and no users. -/
def dbOneArticle : DB :=
  ⟨[], [dbMkArticle 1 0 ⟨"A1", "d", "5", "L1", none, none, none, none⟩], [], []⟩

/-- A store holding exactly one user (id 0, defaults applied). -/
def storeWithUser : Store :=
  (createUser Store.empty ⟨"Anna", none, none, none⟩).1

/-- A store holding exactly one order line (id 0) that is not picked. -/
def storeUnpicked : Store :=
  (createOrderLine Store.empty
    ⟨"O1", "ART-1", "desc", "10", 1, some "Ej plockat", none, none⟩).1

/-- The stored unpicked order line of storeUnpicked. -/
def unpickedLine : OrderLine :=
  ⟨0, "O1", "ART-1", "desc", "10", 1, "Ej plockat", false, none, none, some 0⟩

/-- A store holding exactly one article (id 0). -/
def storeOneArticle : Store :=
  (createArticle Store.empty
    ⟨"ART-9", "desc", "5", "L1", none, none, none, none⟩).1

/-- The stored article of storeOneArticle. -/
def art0 : Article :=
  ⟨0, "ART-9", "desc", "5", "L1", none, none, false, none, none, some 0⟩

/-- A patch touching the location and the id fields only. -/
def patch0 : ArticlePatch :=
  ⟨some 42, none, none, none, some "L2", none, none, none, none, none, none⟩

/-! ### Association list lemmas -/

theorem tget_map_set {α : Type} (t : Table α) (k : Nat) (v : α) :
    tget (t.map (fun p => if p.1 == k then (k, v) else p)) k
      = if thas t k then some v else none := by
  induction t with
  | nil => simp [tget, thas]
  | cons p rest ih =>
    by_cases hp : p.1 = k
    · simp [tget, thas, hp]
    · have hp2 : (p.1 == k) = false := by simp [hp]
      simp only [List.map_cons, hp2, Bool.false_eq_true, if_false, tget, thas] at ih ⊢
      exact ih

theorem tget_append_single {α : Type} (t : Table α) (k : Nat) (v : α)
    (h : thas t k = false) :
    tget (t ++ [(k, v)]) k = some v := by
  induction t with
  | nil => simp [tget]
  | cons p rest ih =>
    by_cases hp : p.1 = k
    · simp [thas, tget, hp] at h
    · have hp2 : (p.1 == k) = false := by simp [hp]
      simp only [thas, tget, hp2, Bool.false_eq_true, if_false] at h
      simp only [List.cons_append, tget, hp2, Bool.false_eq_true, if_false]
      exact ih h

/-- Map.set then Map.get at the same key. -/
theorem tget_tset_self {α : Type} (t : Table α) (k : Nat) (v : α) :
    tget (tset t k v) k = some v := by
  unfold tset
  by_cases h : thas t k
  · rw [if_pos h, tget_map_set, if_pos h]
  · rw [if_neg h]
    exact tget_append_single t k v (Bool.not_eq_true _ ▸ eq_false_of_ne_true h)

theorem tget_map_set_ne {α : Type} (t : Table α) (k j : Nat) (v : α)
    (hjk : j ≠ k) :
    tget (t.map (fun p => if p.1 == k then (k, v) else p)) j = tget t j := by
  induction t with
  | nil => simp [tget]
  | cons p rest ih =>
    by_cases hp : p.1 = k
    · have hkj : ((k : Nat) == j) = false := by
        simp [Ne.symm hjk]
      have hpj : (p.1 == j) = false := by rw [hp]; exact hkj
      simp only [List.map_cons, hp, beq_self_eq_true, if_true, tget, hkj, hpj,
        Bool.false_eq_true, if_false]
      exact ih
    · have hp2 : (p.1 == k) = false := by simp [hp]
      simp only [List.map_cons, hp2, Bool.false_eq_true, if_false, tget]
      by_cases hpj : p.1 = j
      · simp [hpj]
      · have hpj2 : (p.1 == j) = false := by simp [hpj]
        simp only [hpj2, Bool.false_eq_true, if_false]
        exact ih

theorem tget_append_single_ne {α : Type} (t : Table α) (k j : Nat) (v : α)
    (hjk : j ≠ k) : tget (t ++ [(k, v)]) j = tget t j := by
  induction t with
  | nil =>
    have hkj : ((k : Nat) == j) = false := by simp [Ne.symm hjk]
    simp [tget, hkj]
  | cons p rest ih =>
    by_cases hpj : p.1 = j
    · simp [tget, hpj]
    · have hpj2 : (p.1 == j) = false := by simp [hpj]
      simp only [List.cons_append, tget, hpj2, Bool.false_eq_true, if_false]
      exact ih

/-- Map.set leaves every other key unchanged. -/
theorem tget_tset_ne {α : Type} (t : Table α) (k j : Nat) (v : α)
    (hjk : j ≠ k) : tget (tset t k v) j = tget t j := by
  unfold tset
  by_cases h : thas t k
  · rw [if_pos h]
    exact tget_map_set_ne t k j v hjk
  · rw [if_neg h]
    exact tget_append_single_ne t k j v hjk

/-- Map.set on a key that is not present appends. -/
theorem tset_fresh {α : Type} (t : Table α) (k : Nat) (v : α)
    (h : thas t k = false) : tset t k v = t ++ [(k, v)] := by
  simp [tset, h]

theorem thas_false_of_keys_lt {α : Type} (t : Table α) (n : Nat)
    (h : ∀ p ∈ t, p.1 < n) : thas t n = false := by
  induction t with
  | nil => rfl
  | cons p rest ih =>
    have hp : p.1 < n := h p (List.mem_cons_self p rest)
    have hne : (p.1 == n) = false := by simp [Nat.ne_of_lt hp]
    simp only [thas, tget, hne, Bool.false_eq_true, if_false]
    exact ih (fun q hq => h q (List.mem_cons_of_mem p hq))

/-- The drizzle update pattern: mapping a per-row update over a list keeps
the first row matching the predicate first, now updated, provided the
update preserves the predicate. -/
theorem find?_map_if {α : Type} (q : α → Bool) (f : α → α)
    (hq : ∀ x, q x = true → q (f x) = true) :
    ∀ (ls : List α) (a : α), ls.find? q = some a →
      (ls.map (fun x => if q x then f x else x)).find? q = some (f a) := by
  intro ls
  induction ls with
  | nil =>
    intro a h
    simp at h
  | cons x rest ih =>
    intro a h
    by_cases hx : q x = true
    · rw [List.find?_cons_of_pos _ hx] at h
      injection h with h1
      rw [← h1]
      simp only [List.map_cons, if_pos hx]
      exact List.find?_cons_of_pos _ (hq x hx)
    · have hx2 : q x = false := eq_false_of_ne_true hx
      rw [List.find?_cons_of_neg _ (by simp [hx2])] at h
      simp only [List.map_cons, hx2, Bool.false_eq_true, if_false]
      rw [List.find?_cons_of_neg _ (by simp [hx2])]
      exact ih a h

/-! ### Import fold characterization -/

theorem createArticles_store (rows : List InsertArticle) :
    ∀ s : Store, (∀ p ∈ s.articles, p.1 < s.nextId) →
    (createArticles s rows).1
      = { s with articles := s.articles ++ mkArticlesFrom s.nextId s.now rows,
                 nextId := s.nextId + rows.length } := by
  induction rows with
  | nil =>
    intro s hs
    simp [createArticles, mkArticlesFrom]
  | cons ia ias ih =>
    intro s hs
    have hfresh : thas s.articles s.nextId = false :=
      thas_false_of_keys_lt s.articles s.nextId hs
    have hset : tset s.articles s.nextId (memMkArticle s.nextId s.now ia)
        = s.articles ++ [(s.nextId, memMkArticle s.nextId s.now ia)] :=
      tset_fresh _ _ _ hfresh
    have hkeys : ∀ p ∈ s.articles ++ [(s.nextId, memMkArticle s.nextId s.now ia)],
        p.1 < s.nextId + 1 := by
      intro p hp
      rcases List.mem_append.mp hp with hl | hr
      · exact Nat.lt_succ_of_lt (hs p hl)
      · simp at hr
        rw [hr]
        exact Nat.lt_succ_self _
    have := ih { s with
        articles := s.articles ++ [(s.nextId, memMkArticle s.nextId s.now ia)],
        nextId := s.nextId + 1 } hkeys
    simp only [createArticles, createArticle, hset]
    rw [this]
    simp [mkArticlesFrom, List.append_assoc]
    omega

theorem createOrderLines_store (rows : List InsertOrderLine) :
    ∀ s : Store, (∀ p ∈ s.orderLines, p.1 < s.nextId) →
    (createOrderLines s rows).1
      = { s with orderLines := s.orderLines ++ mkLinesFrom s.nextId s.now rows,
                 nextId := s.nextId + rows.length } := by
  induction rows with
  | nil =>
    intro s hs
    simp [createOrderLines, mkLinesFrom]
  | cons il ils ih =>
    intro s hs
    have hfresh : thas s.orderLines s.nextId = false :=
      thas_false_of_keys_lt s.orderLines s.nextId hs
    have hset : tset s.orderLines s.nextId (memMkLine s.nextId s.now il)
        = s.orderLines ++ [(s.nextId, memMkLine s.nextId s.now il)] :=
      tset_fresh _ _ _ hfresh
    have hkeys : ∀ p ∈ s.orderLines ++ [(s.nextId, memMkLine s.nextId s.now il)],
        p.1 < s.nextId + 1 := by
      intro p hp
      rcases List.mem_append.mp hp with hl | hr
      · exact Nat.lt_succ_of_lt (hs p hl)
      · simp at hr
        rw [hr]
        exact Nat.lt_succ_self _
    have := ih { s with
        orderLines := s.orderLines ++ [(s.nextId, memMkLine s.nextId s.now il)],
        nextId := s.nextId + 1 } hkeys
    simp only [createOrderLines, createOrderLine, hset]
    rw [this]
    simp [mkLinesFrom, List.append_assoc]
    omega

theorem proj_mkArticlesFrom (t : Nat) (rows : List ArticleImportRow) :
    ∀ n : Nat,
    (tvalues (mkArticlesFrom n t (rows.map ArticleImportRow.toInsert))).map
      articleRowOf = rows := by
  induction rows with
  | nil => intro n; rfl
  | cons r rs ih =>
    intro n
    simp only [List.map_cons, mkArticlesFrom, tvalues, articleRowOf,
      memMkArticle, ArticleImportRow.toInsert]
    have := ih (n + 1)
    simp only [tvalues, articleRowOf] at this
    rw [this]

theorem proj_mkLinesFrom (t : Nat) (rows : List OrderLineImportRow)
    (hps : ∀ r ∈ rows, r.pickStatus ≠ "") :
    ∀ n : Nat,
    (tvalues (mkLinesFrom n t (rows.map OrderLineImportRow.toInsert))).map
      lineRowOf = rows := by
  induction rows with
  | nil => intro n; rfl
  | cons r rs ih =>
    intro n
    have hr : r.pickStatus ≠ "" := hps r (List.mem_cons_self r rs)
    simp only [List.map_cons, mkLinesFrom, tvalues, lineRowOf,
      memMkLine, OrderLineImportRow.toInsert]
    rw [if_neg hr]
    have := ih (fun q hq => hps q (List.mem_cons_of_mem r hq)) (n + 1)
    simp only [tvalues, lineRowOf] at this
    rw [this]

/-! ### Referential integrity preservation -/

/-- Propositional form of refIntactB. -/
theorem refIntactB_iff (db : DB) :
    refIntactB db = true
      ↔ ∀ ic ∈ db.dbCounts, ∃ a ∈ db.dbArticles, a.id = ic.articleId := by
  simp [refIntactB, List.all_eq_true, List.any_eq_true]

/-- Every single DatabaseStorage call preserves referential integrity of
the inventory_counts table. -/
theorem refIntact_preserved (op : DBOp) (db : DB)
    (h : refIntactB db = true) : refIntactB (applyOp op db) = true := by
  rw [refIntactB_iff] at h
  cases op with
  | opCreateUser id t iu =>
    simp only [applyOp]
    split
    · rw [refIntactB_iff]; exact h
    · rw [refIntactB_iff]; exact h
  | opUpdateUser id p =>
    simp only [applyOp]
    rw [refIntactB_iff]; exact h
  | opDeleteUser id =>
    simp only [applyOp]
    rw [refIntactB_iff]; exact h
  | opCreateArticle id t ia =>
    simp only [applyOp]
    split
    · rw [refIntactB_iff]; exact h
    · rw [refIntactB_iff]
      intro ic hic
      obtain ⟨a, ha, hid⟩ := h ic hic
      exact ⟨a, List.mem_append_left _ ha, hid⟩
  | opCreateArticles t rows =>
    simp only [applyOp]
    split
    · rw [refIntactB_iff]; exact h
    · rw [refIntactB_iff]
      intro ic hic
      obtain ⟨a, ha, hid⟩ := h ic hic
      exact ⟨a, List.mem_append_left _ ha, hid⟩
  | opUpdateArticle id p =>
    simp only [applyOp]
    split
    · rw [refIntactB_iff]; exact h
    · rename_i a hfind
      split
      · rw [refIntactB_iff]; exact h
      · rename_i hguard
        rw [refIntactB_iff]
        intro ic hic
        obtain ⟨b, hb, hid⟩ := h ic hic
        by_cases hbid : b.id = id
        · -- the updated row: its id must be unchanged, else the guard fired
          have haid : a.id = id := by
            have := List.find?_some hfind
            simpa using this
          by_cases hm : (mergeArticle a p).id = a.id
          · refine ⟨mergeArticle a p, ?_, ?_⟩
            · refine List.mem_map.mpr ⟨b, hb, ?_⟩
              simp [hbid]
            · rw [hm, haid, ← hbid]
              exact hid
          · exfalso
            apply hguard
            refine ⟨hm, Or.inl ?_⟩
            rw [List.any_eq_true]
            refine ⟨ic, hic, ?_⟩
            simp [haid, ← hbid, hid]
        · refine ⟨b, ?_, hid⟩
          refine List.mem_map.mpr ⟨b, hb, ?_⟩
          simp [hbid]
  | opDeleteAllArticles =>
    simp only [applyOp]
    rw [refIntactB_iff]
    intro ic hic
    exfalso
    have hmem := List.mem_filter.mp hic
    obtain ⟨a, ha, hid⟩ := h ic hmem.1
    have : db.dbArticles.any (fun a => a.id == ic.articleId) = true := by
      rw [List.any_eq_true]
      exact ⟨a, ha, by simp [hid]⟩
    simp [this] at hmem
  | opCreateOrderLine id t il =>
    simp only [applyOp]
    split
    · rw [refIntactB_iff]; exact h
    · rw [refIntactB_iff]; exact h
  | opCreateOrderLines t rows =>
    simp only [applyOp]
    split
    · rw [refIntactB_iff]; exact h
    · rw [refIntactB_iff]; exact h
  | opUpdateOrderLine id p =>
    simp only [applyOp]
    rw [refIntactB_iff]; exact h
  | opDeleteAllOrderLines =>
    simp only [applyOp]
    rw [refIntactB_iff]; exact h
  | opCreateInventoryCount id t ic =>
    simp only [applyOp]
    split
    · rw [refIntactB_iff]; exact h
    · rename_i hguard
      rw [refIntactB_iff]
      intro ic2 hic2
      rcases List.mem_append.mp hic2 with hl | hr
      · exact h ic2 hl
      · simp at hr
        have hart : db.dbArticles.any (fun a => a.id == ic.articleId) = true := by
          rcases Bool.or_eq_false_iff.mp (Bool.eq_false_iff.mpr hguard) with ⟨h1, h2⟩
          rcases Bool.or_eq_false_iff.mp h1 with ⟨h3, h4⟩
          simpa using h4
        obtain ⟨a, ha, hid⟩ := List.any_eq_true.mp hart
        refine ⟨a, ha, ?_⟩
        rw [hr]
        simpa [dbMkCount] using hid
  | opUpdateInventoryCount id p =>
    simp only [applyOp]
    split
    · rw [refIntactB_iff]; exact h
    · rename_i c hfind
      split
      · rw [refIntactB_iff]; exact h
      · rename_i hguard
        rw [refIntactB_iff]
        intro ic2 hic2
        obtain ⟨d, hd, hdm⟩ := List.mem_map.mp hic2
        by_cases hdid : d.id = id
        · have hart : db.dbArticles.any
              (fun a => a.id == (mergeCount c p).articleId) = true := by
            rcases Bool.or_eq_false_iff.mp (Bool.eq_false_iff.mpr hguard) with ⟨h1, h2⟩
            rcases Bool.or_eq_false_iff.mp h1 with ⟨h3, h4⟩
            simpa using h3
          obtain ⟨a, ha, hid⟩ := List.any_eq_true.mp hart
          refine ⟨a, ha, ?_⟩
          rw [← hdm]
          simp [hdid]
          simpa using hid
        · obtain ⟨a, ha, hid⟩ := h d hd
          refine ⟨a, ha, ?_⟩
          rw [← hdm]
          simp [hdid]
          exact hid
  | opDeleteInventoryCount id =>
    simp only [applyOp]
    rw [refIntactB_iff]
    intro ic hic
    exact h ic (List.mem_filter.mp hic).1
  | opClearAllData =>
    simp only [applyOp]
    rw [refIntactB_iff]
    intro ic hic
    exact absurd hic (List.not_mem_nil ic)

/-- Referential integrity is preserved along any call sequence. -/
theorem refIntact_preserved_ops (ops : List DBOp) :
    ∀ db : DB, refIntactB db = true → refIntactB (applyOps ops db) = true := by
  induction ops with
  | nil => intro db h; exact h
  | cons op rest ih =>
    intro db h
    exact ih (applyOp op db) (refIntact_preserved op db h)

/-! ### The inventory update against the SQLite-backed store -/

/-- The inventory update succeeds when the line exists and the userId
references an existing user row. -/
theorem dbUpdateOrderLine_inventory_ok (db : DB) (id uid t : Nat)
    (l : OrderLine)
    (hfind : db.dbOrderLines.find? (fun x => x.id == id) = some l)
    (hu : db.dbUsers.any (fun u => u.id == uid) = true) :
    dbUpdateOrderLine id (inventoryPatch uid t) db
      = Except.ok ({ db with dbOrderLines := (db.dbOrderLines.map (fun x =>
          if x.id == id then mergeOrderLine x (inventoryPatch uid t) else x)) },
        some (mergeOrderLine l (inventoryPatch uid t))) := by
  have hne : OrderLinePatch.isEmpty (inventoryPatch uid t) = false := rfl
  have hA : (mergeOrderLine l (inventoryPatch uid t)).id = l.id := by
    simp [mergeOrderLine, inventoryPatch]
  have hB : userFkOk db.dbUsers
      (mergeOrderLine l (inventoryPatch uid t)).inventoriedBy = true := by
    simp [mergeOrderLine, inventoryPatch, userFkOk, hu]
  simp [dbUpdateOrderLine, hne, hfind, hA, hB]

/-- The inventory update throws on the inventoried_by foreign key when the
userId references no user row. -/
theorem dbUpdateOrderLine_inventory_fk (db : DB) (id uid t : Nat)
    (l : OrderLine)
    (hfind : db.dbOrderLines.find? (fun x => x.id == id) = some l)
    (hu : db.dbUsers.any (fun u => u.id == uid) = false) :
    dbUpdateOrderLine id (inventoryPatch uid t) db = Except.error () := by
  have hne : OrderLinePatch.isEmpty (inventoryPatch uid t) = false := rfl
  have hB : userFkOk db.dbUsers
      (mergeOrderLine l (inventoryPatch uid t)).inventoriedBy = false := by
    simp [mergeOrderLine, inventoryPatch, userFkOk, hu]
  simp [dbUpdateOrderLine, hne, hfind, hB]

/-- Success run of the order-line inventory handler: picked line, existing
user. -/
theorem dbPostOrderLineInventory_ok (db : DB) (id uid t : Nat)
    (l : OrderLine)
    (hfind : dbGetOrderLine id db = some l)
    (hps : l.pickStatus = "Plockat")
    (hu : db.dbUsers.any (fun u => u.id == uid) = true) :
    dbPostOrderLineInventory t id (some uid) db
      = ⟨{ db with dbOrderLines := (db.dbOrderLines.map (fun x =>
            if x.id == id then mergeOrderLine x (inventoryPatch uid t) else x)) },
         some ⟨200, none⟩,
         [Action.storeWrite,
          Action.sendEvent ⟨"order_line_inventoried",
            EventData.dline (mergeOrderLine l (inventoryPatch uid t))⟩]⟩ := by
  have hfindraw : db.dbOrderLines.find? (fun x => x.id == id) = some l := hfind
  have hupd := dbUpdateOrderLine_inventory_ok db id uid t l hfindraw hu
  simp [dbPostOrderLineInventory, dbGetOrderLine, hfindraw, hps, hupd,
    lineEventData]

/-- Throwing run of the order-line inventory handler: picked line, userId
with no user row — the rejection escapes, no response, no broadcast. -/
theorem dbPostOrderLineInventory_fk (db : DB) (id uid t : Nat)
    (l : OrderLine)
    (hfind : dbGetOrderLine id db = some l)
    (hps : l.pickStatus = "Plockat")
    (hu : db.dbUsers.any (fun u => u.id == uid) = false) :
    dbPostOrderLineInventory t id (some uid) db = ⟨db, none, []⟩ := by
  have hfindraw : db.dbOrderLines.find? (fun x => x.id == id) = some l := hfind
  have hupd := dbUpdateOrderLine_inventory_fk db id uid t l hfindraw hu
  simp [dbPostOrderLineInventory, dbGetOrderLine, hfindraw, hps, hupd]

/-! ### Claim theorems -/

/-- C3 counterexample: the server broadcasts a user_updated event (shown on
a concrete PATCH /api/users/:id), yet the client invalidation mapping maps
user_updated to no cache key at all, and maps inventory_count_deleted to
the inventory-count query only, not to the article query — contradicting
both the totality part and the cross-invalidation part of the claim. -/
theorem c3_invalidation_counterexample :
    (patchUserRoute storeWithUser 0 (some ⟨none, none, none, none⟩)).trace
        = [Action.storeWrite,
           Action.sendEvent ⟨"user_updated",
             EventData.duser ⟨0, "Anna", "Lagerarbetare", none, true, some 0⟩⟩] ∧
    invalidationKeys "user_updated" = [] ∧
    invalidationKeys "inventory_count_deleted" = ["/api/inventory-counts"] ∧
    "/api/articles" ∉ invalidationKeys "inventory_count_deleted" := by
  decide

/-- C3 amended: the client invalidation mapping covers only part of the
event types the server broadcasts. Per broadcast type, in the order of
serverEventTypes: user_updated, user_deleted and data_cleared invalidate
nothing; inventory_count_deleted (like the other inventory-count events)
invalidates only the inventory-count query, not the article query; every
remaining type invalidates exactly one query key. -/
theorem c3_invalidation_map :
    serverEventTypes.map invalidationKeys
      = [["/api/users"], [], [],
         ["/api/articles"], ["/api/articles"], ["/api/articles"],
         ["/api/inventory-counts"], ["/api/inventory-counts"],
         ["/api/inventory-counts"],
         ["/api/order-lines"], ["/api/order-lines"], ["/api/order-lines"],
         []] := by
  decide

/-- C6 counterexample: clear-data does broadcast a single data_cleared
event with no payload, but the client message handler has no case for
data_cleared, so connected clients invalidate no cache at all — the claimed
invalidation of the articles, order-lines and inventory-counts caches does
not happen. -/
theorem c6_clear_data_counterexample :
    (postAdminClearData Store.empty "admin123").trace
        = [Action.storeWrite,
           Action.sendEvent ⟨"data_cleared", EventData.dundef⟩] ∧
    invalidationKeys "data_cleared" = [] := by
  decide

/-- C6 amended: on the correct admin password, the store's articles, order
lines and inventory counts are cleared and exactly one data_cleared event
carrying no payload beyond the event kind is broadcast, after the store
write; however, the client invalidation mapping ignores data_cleared, so
connected clients invalidate nothing in response to the event. -/
theorem c6_clear_data (s : Store) :
    (postAdminClearData s "admin123").store
        = { s with articles := [], orderLines := [], inventoryCounts := [] } ∧
    (postAdminClearData s "admin123").resp.status = 200 ∧
    (postAdminClearData s "admin123").trace
        = [Action.storeWrite,
           Action.sendEvent ⟨"data_cleared", EventData.dundef⟩] ∧
    invalidationKeys "data_cleared" = [] := by
  refine ⟨?_, ?_, ?_, by decide⟩
  · simp [postAdminClearData, clearAllData]
  · simp [postAdminClearData]
  · simp [postAdminClearData]

/-- C4 counterexample: with two open sessions, broadcast serializes the
event twice (JSON.stringify runs inside the per-client loop), so the event
is not serialized once. -/
theorem c4_serialize_once_counterexample :
    (broadcastRun sampleEvent
        [openSession, ⟨3, ReadyState.OPEN, false, []⟩]).stringifyCalls = 2 ∧
    (broadcastRun sampleEvent
        [openSession, ⟨3, ReadyState.OPEN, false, []⟩]).stringifyCalls ≠ 1 := by
  decide

/-- C4 amended: broadcast serializes the event once per open client — each
serialization of the same event yields the same string — and, when no send
throws, writes exactly one copy of that serialized form to every client
whose transport state is open at the time of the call, skipping every
client whose transport is not open. -/
theorem c4_broadcast_delivery (e : Event) (cs : List Session)
    (h : ∀ c ∈ cs, c.sendFails = false) :
    (broadcastRun e cs).threw = false ∧
    (broadcastRun e cs).stringifyCalls = countOpen cs ∧
    (broadcastRun e cs).clients = cs.map (deliverTo e) := by
  induction cs with
  | nil => exact ⟨rfl, rfl, rfl⟩
  | cons c rest ih =>
    have hc : c.sendFails = false := h c (List.mem_cons_self c rest)
    obtain ⟨h1, h2, h3⟩ := ih (fun d hd => h d (List.mem_cons_of_mem c hd))
    by_cases ho : c.readyState = ReadyState.OPEN
    · simp [broadcastRun, ho, hc, h1, h2, h3, countOpen, deliverTo]
    · simp [broadcastRun, ho, h1, h2, h3, countOpen, deliverTo]

/-- Witness for c4_broadcast_delivery at a concrete session list. -/
theorem c4_broadcast_delivery_witness :
    (broadcastRun sampleEvent [openSession, closedSession]).clients
        = [openSession, closedSession].map (deliverTo sampleEvent) :=
  (c4_broadcast_delivery sampleEvent [openSession, closedSession]
    (by decide)).2.2

/-- C5 counterexample: the first session's send throws; the second open
session receives nothing, and the failing session is still in the registry
afterwards (broadcast removes nobody), so a later broadcast would write to
it again. -/
theorem c5_isolation_counterexample :
    broadcastRun sampleEvent [failingSession, lateSession]
      = ⟨[failingSession, lateSession], true, 1⟩ := by
  decide

/-- C5 amended: broadcast has no per-session error handling. A throwing
send aborts the forEach: sessions before the failing one (here all with
working sends) are delivered to, the failing session and every session
after it receive nothing, the exception escapes, and the registry is left
unchanged — in particular the failing session is not removed, so a
subsequent broadcast attempts to write to it again. -/
theorem c5_write_error_aborts (e : Event) (pre post : List Session)
    (f : Session) (hpre : ∀ c ∈ pre, c.sendFails = false)
    (hf : f.readyState = ReadyState.OPEN) (hff : f.sendFails = true) :
    broadcastRun e (pre ++ f :: post)
      = ⟨pre.map (deliverTo e) ++ f :: post, true, countOpen pre + 1⟩ := by
  induction pre with
  | nil => simp [broadcastRun, hf, hff, countOpen]
  | cons c rest ih =>
    have hc : c.sendFails = false := hpre c (List.mem_cons_self c rest)
    have ih2 := ih (fun d hd => hpre d (List.mem_cons_of_mem c hd))
    by_cases ho : c.readyState = ReadyState.OPEN
    · simp [broadcastRun, ho, hc, ih2, countOpen, deliverTo]
    · simp [broadcastRun, ho, ih2, countOpen, deliverTo]

/-- Witness for c5_write_error_aborts at a concrete session list. -/
theorem c5_write_error_aborts_witness :
    broadcastRun sampleEvent ([openSession] ++ failingSession :: [lateSession])
      = ⟨[openSession].map (deliverTo sampleEvent)
           ++ failingSession :: [lateSession], true,
         countOpen [openSession] + 1⟩ :=
  c5_write_error_aborts sampleEvent [openSession] [lateSession] failingSession
    (by decide) (by decide) (by decide)

/-- C2: an order line whose pickStatus is not "Plockat" cannot be marked
inventoried: the request is rejected with status 400 and the
domain-specific message "Endast plockade orderrader kan inventeras" (not a
generic validation message), no event is broadcast, and the store — hence
the stored order line — is unchanged; conversely a 200 response implies the
line's pickStatus was "Plockat". -/
theorem c2_unpicked_rejected (s : Store) (id : Nat) (uid : Option Nat)
    (line : OrderLine) (h : getOrderLine s id = some line) :
    (line.pickStatus ≠ "Plockat" →
      ∀ u : Nat, postOrderLineInventory s id (some u)
        = ⟨s, ⟨400, some "Endast plockade orderrader kan inventeras"⟩, []⟩) ∧
    ((postOrderLineInventory s id uid).resp.status = 200 →
      line.pickStatus = "Plockat") := by
  constructor
  · intro hne u
    simp [postOrderLineInventory, h, hne]
  · intro hs
    by_contra hne
    cases uid with
    | none => simp [postOrderLineInventory] at hs
    | some u => simp [postOrderLineInventory, h, hne] at hs

/-- Witness for c2_unpicked_rejected on a store holding one unpicked
order line. -/
theorem c2_unpicked_rejected_witness :
    postOrderLineInventory storeUnpicked 0 (some 5)
      = ⟨storeUnpicked,
         ⟨400, some "Endast plockade orderrader kan inventeras"⟩, []⟩ :=
  (c2_unpicked_rejected storeUnpicked 0 (some 5) unpickedLine
    (by decide)).1 (by decide) 5

/-- C10: for an existing article, PATCH /api/articles/:id applies the
unvalidated request body as a spread merge: the stored article becomes
mergeArticle a p, every other article id is untouched, every field absent
from the patch keeps its old value, and every field present in the patch —
any Article field, id included — takes the patch value. -/
theorem c10_update_article_frame (s : Store) (id : Nat) (p : ArticlePatch)
    (a : Article) (h : tget s.articles id = some a) :
    patchArticleRoute s id p
      = ⟨{ s with articles := tset s.articles id (mergeArticle a p) },
         ⟨200, none⟩,
         [Action.storeWrite,
          Action.sendEvent
            ⟨"article_updated", EventData.darticle (mergeArticle a p)⟩]⟩ ∧
    (∀ j, j ≠ id →
      tget (tset s.articles id (mergeArticle a p)) j = tget s.articles j) ∧
    tget (tset s.articles id (mergeArticle a p)) id
        = some (mergeArticle a p) ∧
    (p.id = none → (mergeArticle a p).id = a.id) ∧
    (∀ v, p.id = some v → (mergeArticle a p).id = v) ∧
    (p.articleNumber = none →
      (mergeArticle a p).articleNumber = a.articleNumber) ∧
    (∀ v, p.articleNumber = some v → (mergeArticle a p).articleNumber = v) ∧
    (p.description = none → (mergeArticle a p).description = a.description) ∧
    (∀ v, p.description = some v → (mergeArticle a p).description = v) ∧
    (p.length = none → (mergeArticle a p).length = a.length) ∧
    (∀ v, p.length = some v → (mergeArticle a p).length = v) ∧
    (p.location = none → (mergeArticle a p).location = a.location) ∧
    (∀ v, p.location = some v → (mergeArticle a p).location = v) ∧
    (p.inventoryCount = none →
      (mergeArticle a p).inventoryCount = a.inventoryCount) ∧
    (∀ v, p.inventoryCount = some v →
      (mergeArticle a p).inventoryCount = v) ∧
    (p.notes = none → (mergeArticle a p).notes = a.notes) ∧
    (∀ v, p.notes = some v → (mergeArticle a p).notes = v) ∧
    (p.isInventoried = none →
      (mergeArticle a p).isInventoried = a.isInventoried) ∧
    (∀ v, p.isInventoried = some v → (mergeArticle a p).isInventoried = v) ∧
    (p.lastInventoriedBy = none →
      (mergeArticle a p).lastInventoriedBy = a.lastInventoriedBy) ∧
    (∀ v, p.lastInventoriedBy = some v →
      (mergeArticle a p).lastInventoriedBy = v) ∧
    (p.lastInventoriedAt = none →
      (mergeArticle a p).lastInventoriedAt = a.lastInventoriedAt) ∧
    (∀ v, p.lastInventoriedAt = some v →
      (mergeArticle a p).lastInventoriedAt = v) ∧
    (p.createdAt = none → (mergeArticle a p).createdAt = a.createdAt) ∧
    (∀ v, p.createdAt = some v → (mergeArticle a p).createdAt = v) :=
  ⟨by simp [patchArticleRoute, getArticle, h, updateArticle, articleEventData],
   fun j hj => tget_tset_ne _ _ _ _ hj,
   tget_tset_self _ _ _,
   fun hv => by simp [mergeArticle, hv],
   fun v hv => by simp [mergeArticle, hv],
   fun hv => by simp [mergeArticle, hv],
   fun v hv => by simp [mergeArticle, hv],
   fun hv => by simp [mergeArticle, hv],
   fun v hv => by simp [mergeArticle, hv],
   fun hv => by simp [mergeArticle, hv],
   fun v hv => by simp [mergeArticle, hv],
   fun hv => by simp [mergeArticle, hv],
   fun v hv => by simp [mergeArticle, hv],
   fun hv => by simp [mergeArticle, hv],
   fun v hv => by simp [mergeArticle, hv],
   fun hv => by simp [mergeArticle, hv],
   fun v hv => by simp [mergeArticle, hv],
   fun hv => by simp [mergeArticle, hv],
   fun v hv => by simp [mergeArticle, hv],
   fun hv => by simp [mergeArticle, hv],
   fun v hv => by simp [mergeArticle, hv],
   fun hv => by simp [mergeArticle, hv],
   fun v hv => by simp [mergeArticle, hv],
   fun hv => by simp [mergeArticle, hv],
   fun v hv => by simp [mergeArticle, hv]⟩

/-- Witness for c10_update_article_frame on a one-article store with a
patch that rewrites the location and the id field. -/
theorem c10_update_article_frame_witness :
    tget (tset storeOneArticle.articles 0 (mergeArticle art0 patch0)) 0
      = some (mergeArticle art0 patch0) :=
  (c10_update_article_frame storeOneArticle 0 patch0 art0 (by decide)).2.2.1

/-- C8: a successful import replaces. For articles: every previously stored
article is deleted, all inventory counts are cascaded away, and afterwards
the article table holds exactly the freshly keyed rows built from the
parsed spreadsheet rows — projecting the stored rows back onto the import
columns returns the parsed rows. For order lines likewise (under the row
mapping's guarantee that the mapped pickStatus string is nonempty),
with the order line table replaced and nothing else touched. -/
theorem c8_import_replaces (s : Store) (rows : List ArticleImportRow)
    (lrows : List OrderLineImportRow)
    (hps : ∀ r ∈ lrows, r.pickStatus ≠ "") :
    (postArticlesImport s (some (Except.ok rows))).store
      = { s with
            articles := (mkArticlesFrom s.nextId s.now
              (rows.map ArticleImportRow.toInsert)),
            inventoryCounts := [],
            nextId := s.nextId + rows.length } ∧
    (postArticlesImport s (some (Except.ok rows))).resp.status = 200 ∧
    (tvalues (postArticlesImport s
        (some (Except.ok rows))).store.articles).map articleRowOf = rows ∧
    (postOrderLinesImport s (some (Except.ok lrows))).store
      = { s with
            orderLines := (mkLinesFrom s.nextId s.now
              (lrows.map OrderLineImportRow.toInsert)),
            nextId := s.nextId + lrows.length } ∧
    (postOrderLinesImport s (some (Except.ok lrows))).resp.status = 200 ∧
    (tvalues (postOrderLinesImport s
        (some (Except.ok lrows))).store.orderLines).map lineRowOf = lrows := by
  have ha : (postArticlesImport s (some (Except.ok rows))).store
      = { s with
            articles := (mkArticlesFrom s.nextId s.now
              (rows.map ArticleImportRow.toInsert)),
            inventoryCounts := [],
            nextId := s.nextId + rows.length } := by
    simp only [postArticlesImport]
    rw [createArticles_store (rows.map ArticleImportRow.toInsert)
      (deleteAllArticles s) (by simp [deleteAllArticles])]
    simp [deleteAllArticles]
  have hl : (postOrderLinesImport s (some (Except.ok lrows))).store
      = { s with
            orderLines := (mkLinesFrom s.nextId s.now
              (lrows.map OrderLineImportRow.toInsert)),
            nextId := s.nextId + lrows.length } := by
    simp only [postOrderLinesImport]
    rw [createOrderLines_store (lrows.map OrderLineImportRow.toInsert)
      (deleteAllOrderLines s) (by simp [deleteAllOrderLines])]
    simp [deleteAllOrderLines]
  refine ⟨ha, by simp [postArticlesImport], ?_, hl,
    by simp [postOrderLinesImport], ?_⟩
  · rw [ha]
    exact proj_mkArticlesFrom s.now rows s.nextId
  · rw [hl]
    exact proj_mkLinesFrom s.now lrows hps s.nextId

/-- Witness for c8_import_replaces on the empty store with one article row
and one order line row. -/
theorem c8_import_replaces_witness :
    (postArticlesImport Store.empty
        (some (Except.ok [(⟨"A1", "d", "5", "L1"⟩ : ArticleImportRow)]))).resp.status
      = 200 :=
  (c8_import_replaces Store.empty [⟨"A1", "d", "5", "L1"⟩]
    [⟨"O1", "A1", "d", "5", 1, "Plockat"⟩] (by decide)).2.1

/-- C7: referential integrity is an invariant of the SQLite-backed store
(foreign_keys ON, article_id ON DELETE CASCADE): from any state whose
inventory counts all reference present articles, any sequence of
DatabaseStorage calls preserves that property, and deleteAllArticles in
particular cascades away every inventory count whose parent article was
removed, leaving the count table empty. -/
theorem c7_referential_integrity (db : DB) (h : refIntactB db = true) :
    (∀ ops : List DBOp, refIntactB (applyOps ops db) = true) ∧
    (applyOp DBOp.opDeleteAllArticles db).dbCounts = [] := by
  constructor
  · intro ops
    exact refIntact_preserved_ops ops db h
  · simp only [applyOp]
    rw [List.filter_eq_nil_iff]
    intro ic hic
    obtain ⟨a, ha, hid⟩ := (refIntactB_iff db).mp h ic hic
    have hany : db.dbArticles.any (fun a => a.id == ic.articleId) = true :=
      List.any_eq_true.mpr ⟨a, ha, by simp [hid]⟩
    simp [hany]

/-- Witness for c7_referential_integrity: the empty database, extended by a
user, an article and a count for that article, stays referentially
intact. -/
theorem c7_referential_integrity_witness :
    refIntactB (applyOps opsSample DB.empty) = true :=
  (c7_referential_integrity DB.empty (by decide)).1 opsSample

/-- C1 counterexample: a failing store operation does not produce an error
response. POST /api/articles with a duplicate article_number violates the
UNIQUE constraint of the SQLite-backed store: the insert throws, the async
handler has no try/catch, and no response of any kind is sent (resp = none)
— though nothing is broadcast either. -/
theorem c1_store_failure_counterexample :
    (dbHandle (DbRequest.rPostArticles 2 1
        (some ⟨"A1", "x", "6", "L2", none, none, none, none⟩)) dbOneArticle).resp
      = none ∧
    (dbHandle (DbRequest.rPostArticles 2 1
        (some ⟨"A1", "x", "6", "L2", none, none, none, none⟩)) dbOneArticle).trace
      = [] := by
  decide

/-- C1 amended: over every CRUD and import mutation endpoint, against the
SQLite-backed store the routes use: if the request fails validation or
references a missing record, an error response is returned and zero events
are broadcast; if a store statement fails (UNIQUE or FOREIGN KEY violation,
or drizzle's empty-update throw), the import handlers catch it and return a
500 error response while the other handlers send no response at all — in
either case zero events are broadcast; if the store operations succeed, the
handler broadcasts exactly once, after every store write in its trace. -/
theorem c1_mutation_event_discipline (req : DbRequest) (db : DB) :
    ((dbHandle req db).resp = none → countSends (dbHandle req db).trace = 0) ∧
    (∀ r : Response, (dbHandle req db).resp = some r → r.status ≠ 200 →
        countSends (dbHandle req db).trace = 0) ∧
    (∀ r : Response, (dbHandle req db).resp = some r → r.status = 200 →
        traceOk (dbHandle req db).trace = true) := by
  cases req with
  | rPostUsers rid t body =>
    cases body with
    | none => simp [dbHandle, dbPostUsers, countSends]
    | some iu =>
      rcases he : dbCreateUser rid t iu db with e | ⟨db1, u⟩
      · simp [dbHandle, dbPostUsers, he, countSends]
      · simp [dbHandle, dbPostUsers, he, countSends, traceOk, writesThenSend1]
  | rPatchUser id body =>
    cases body with
    | none => simp [dbHandle, dbPatchUser, countSends]
    | some p =>
      rcases he : dbUpdateUser id p db with e | ⟨db1, uo⟩
      · simp [dbHandle, dbPatchUser, he, countSends]
      · cases uo with
        | none => simp [dbHandle, dbPatchUser, he, countSends]
        | some u =>
          simp [dbHandle, dbPatchUser, he, countSends, traceOk, writesThenSend1]
  | rDeleteUser id =>
    rcases he : dbDeleteUser id db with e | ⟨db1, b⟩
    · simp [dbHandle, dbDeleteUserRoute, he, countSends]
    · cases b with
      | false => simp [dbHandle, dbDeleteUserRoute, he, countSends]
      | true =>
        simp [dbHandle, dbDeleteUserRoute, he, countSends, traceOk,
          writesThenSend1]
  | rPostArticles rid t body =>
    cases body with
    | none => simp [dbHandle, dbPostArticles, countSends]
    | some ia =>
      rcases he : dbCreateArticle rid t ia db with e | ⟨db1, a⟩
      · simp [dbHandle, dbPostArticles, he, countSends]
      · simp [dbHandle, dbPostArticles, he, countSends, traceOk, writesThenSend1]
  | rImportArticles ids t file =>
    cases file with
    | none => simp [dbHandle, dbPostArticlesImport, countSends]
    | some ex =>
      cases ex with
      | error e => simp [dbHandle, dbPostArticlesImport, countSends]
      | ok rows =>
        rcases he : dbCreateArticles t (ids.zip
            (rows.map ArticleImportRow.toInsert)) (dbDeleteAllArticles db)
          with e | ⟨db2, created⟩
        · simp [dbHandle, dbPostArticlesImport, he, countSends]
        · simp [dbHandle, dbPostArticlesImport, he, countSends, traceOk,
            writesThenSend1]
  | rPatchArticle id body =>
    rcases hg : dbGetArticle id db with _ | a
    · simp [dbHandle, dbPatchArticle, hg, countSends]
    · rcases he : dbUpdateArticle id body db with e | ⟨db1, upd⟩
      · simp [dbHandle, dbPatchArticle, hg, he, countSends]
      · simp [dbHandle, dbPatchArticle, hg, he, countSends, traceOk,
          writesThenSend1]
  | rPostArticleInventory rid t id body =>
    cases body with
    | none => simp [dbHandle, dbPostArticleInventory, countSends]
    | some b =>
      rcases hg : dbGetArticle id db with _ | a
      · simp [dbHandle, dbPostArticleInventory, hg, countSends]
      · rcases he : dbCreateInventoryCount rid t
            ⟨id, b.userId, b.inventoryCount, b.notes⟩ db with e | ⟨db1, c⟩
        · simp [dbHandle, dbPostArticleInventory, hg, he, countSends]
        · simp [dbHandle, dbPostArticleInventory, hg, he, countSends, traceOk,
            writesThenSend1]
  | rPatchInventoryCount id body =>
    cases body with
    | none => simp [dbHandle, dbPatchInventoryCount, countSends]
    | some b =>
      rcases he : dbUpdateInventoryCount id b.toPatch db with e | ⟨db1, co⟩
      · simp [dbHandle, dbPatchInventoryCount, he, countSends]
      · cases co with
        | none => simp [dbHandle, dbPatchInventoryCount, he, countSends]
        | some c =>
          simp [dbHandle, dbPatchInventoryCount, he, countSends, traceOk,
            writesThenSend1]
  | rDeleteInventoryCount id =>
    rcases hf : db.dbCounts.find? (fun ic => ic.id == id) with _ | ic
    · simp [dbHandle, dbDeleteInventoryCountRoute, hf, countSends]
    · rcases hd : dbDeleteInventoryCount id db with ⟨db1, b⟩
      cases b with
      | false => simp [dbHandle, dbDeleteInventoryCountRoute, hf, hd, countSends]
      | true =>
        simp [dbHandle, dbDeleteInventoryCountRoute, hf, hd, countSends,
          traceOk, writesThenSend1]
  | rPostOrderLines rid t body =>
    cases body with
    | none => simp [dbHandle, dbPostOrderLines, countSends]
    | some il =>
      rcases he : dbCreateOrderLine rid t il db with e | ⟨db1, l⟩
      · simp [dbHandle, dbPostOrderLines, he, countSends]
      · simp [dbHandle, dbPostOrderLines, he, countSends, traceOk,
          writesThenSend1]
  | rImportOrderLines ids t file =>
    cases file with
    | none => simp [dbHandle, dbPostOrderLinesImport, countSends]
    | some ex =>
      cases ex with
      | error e => simp [dbHandle, dbPostOrderLinesImport, countSends]
      | ok rows =>
        rcases he : dbCreateOrderLines t (ids.zip
            (rows.map OrderLineImportRow.toInsert)) (dbDeleteAllOrderLines db)
          with e | ⟨db2, created⟩
        · simp [dbHandle, dbPostOrderLinesImport, he, countSends]
        · simp [dbHandle, dbPostOrderLinesImport, he, countSends, traceOk,
            writesThenSend1]
  | rOrderLineInventory t id userId =>
    cases userId with
    | none => simp [dbHandle, dbPostOrderLineInventory, countSends]
    | some uid =>
      rcases hg : dbGetOrderLine id db with _ | line
      · simp [dbHandle, dbPostOrderLineInventory, hg, countSends]
      · by_cases hps : line.pickStatus = "Plockat"
        · rcases he : dbUpdateOrderLine id (inventoryPatch uid t) db
            with e | ⟨db1, upd⟩
          · simp [dbHandle, dbPostOrderLineInventory, hg, hps, he, countSends]
          · simp [dbHandle, dbPostOrderLineInventory, hg, hps, he, countSends,
              traceOk, writesThenSend1]
        · simp [dbHandle, dbPostOrderLineInventory, hg, hps, countSends]

/-- Witness for c1_mutation_event_discipline: an uncaught duplicate-number
insert broadcasts nothing, a delete of a missing user gets a 404 with no
broadcast, and a valid user create has a write-then-broadcast trace. -/
theorem c1_mutation_event_discipline_witness :
    countSends (dbHandle (DbRequest.rPostArticles 2 1
        (some ⟨"A1", "x", "6", "L2", none, none, none, none⟩)) dbOneArticle).trace
      = 0 ∧
    countSends (dbHandle (DbRequest.rDeleteUser 0) DB.empty).trace = 0 ∧
    traceOk (dbHandle (DbRequest.rPostUsers 1 0
        (some ⟨"Anna", none, none, none⟩)) DB.empty).trace = true :=
  ⟨(c1_mutation_event_discipline (DbRequest.rPostArticles 2 1
        (some ⟨"A1", "x", "6", "L2", none, none, none, none⟩)) dbOneArticle).1
      (by decide),
   (c1_mutation_event_discipline (DbRequest.rDeleteUser 0) DB.empty).2.1
      ⟨404, some "User not found"⟩ (by decide) (by decide),
   (c1_mutation_event_discipline (DbRequest.rPostUsers 1 0
        (some ⟨"Anna", none, none, none⟩)) DB.empty).2.2
      ⟨200, none⟩ (by decide) (by decide)⟩

/-- C9 counterexample: on the store the routes use, a second inventory call
on a picked order line with a different userId that has no user row does
not succeed: the inventoried_by foreign key (foreign_keys ON) makes the
update throw — no response is sent and nothing is broadcast — refuting the
claim's unqualified 'a second call with a different userId succeeds
again'. -/
theorem c9_fk_counterexample :
    (dbPostOrderLineInventory 4 10 (some 1) dbSeed).resp = some ⟨200, none⟩ ∧
    (dbPostOrderLineInventory 5 10 (some 99)
        (dbPostOrderLineInventory 4 10 (some 1) dbSeed).db).resp = none ∧
    (dbPostOrderLineInventory 5 10 (some 99)
        (dbPostOrderLineInventory 4 10 (some 1) dbSeed).db).trace = [] := by
  decide

/-- C9 amended: the handler never checks isInventoried. For a picked order
line and any two userIds that reference existing user rows, a second
inventory call with the second user's id succeeds again (status 200),
overwriting inventoriedBy and inventoriedAt with the new caller's values
and broadcasting another order_line_inventoried event; a second call whose
userId references no user row instead throws on the inventoried_by foreign
key — no response is sent and nothing is broadcast. -/
theorem c9_reinventory (db : DB) (id u1 u2 t1 t2 : Nat) (line : OrderLine)
    (hline : dbGetOrderLine id db = some line)
    (hps : line.pickStatus = "Plockat")
    (hu1 : db.dbUsers.any (fun u => u.id == u1) = true)
    (hu2 : db.dbUsers.any (fun u => u.id == u2) = true) :
    (dbPostOrderLineInventory t1 id (some u1) db).resp = some ⟨200, none⟩ ∧
    dbGetOrderLine id (dbPostOrderLineInventory t1 id (some u1) db).db
        = some (mergeOrderLine line (inventoryPatch u1 t1)) ∧
    (mergeOrderLine line (inventoryPatch u1 t1)).isInventoried = true ∧
    (mergeOrderLine line (inventoryPatch u1 t1)).inventoriedBy = some u1 ∧
    (dbPostOrderLineInventory t2 id (some u2)
        (dbPostOrderLineInventory t1 id (some u1) db).db).resp
      = some ⟨200, none⟩ ∧
    dbGetOrderLine id (dbPostOrderLineInventory t2 id (some u2)
        (dbPostOrderLineInventory t1 id (some u1) db).db).db
      = some (mergeOrderLine (mergeOrderLine line (inventoryPatch u1 t1))
          (inventoryPatch u2 t2)) ∧
    (mergeOrderLine (mergeOrderLine line (inventoryPatch u1 t1))
        (inventoryPatch u2 t2)).inventoriedBy = some u2 ∧
    (mergeOrderLine (mergeOrderLine line (inventoryPatch u1 t1))
        (inventoryPatch u2 t2)).inventoriedAt = some t2 ∧
    (dbPostOrderLineInventory t2 id (some u2)
        (dbPostOrderLineInventory t1 id (some u1) db).db).trace
      = [Action.storeWrite,
         Action.sendEvent ⟨"order_line_inventoried",
           EventData.dline (mergeOrderLine
             (mergeOrderLine line (inventoryPatch u1 t1))
             (inventoryPatch u2 t2))⟩] ∧
    (∀ u3, db.dbUsers.any (fun u => u.id == u3) = false →
      (dbPostOrderLineInventory t2 id (some u3)
          (dbPostOrderLineInventory t1 id (some u1) db).db).resp = none ∧
      (dbPostOrderLineInventory t2 id (some u3)
          (dbPostOrderLineInventory t1 id (some u1) db).db).trace = []) := by
  have hfindraw : db.dbOrderLines.find? (fun l => l.id == id) = some line := hline
  have hq1 : ∀ x : OrderLine, (x.id == id) = true →
      ((mergeOrderLine x (inventoryPatch u1 t1)).id == id) = true := by
    intro x hx
    simpa [mergeOrderLine, inventoryPatch] using hx
  have hq2 : ∀ x : OrderLine, (x.id == id) = true →
      ((mergeOrderLine x (inventoryPatch u2 t2)).id == id) = true := by
    intro x hx
    simpa [mergeOrderLine, inventoryPatch] using hx
  have hE1 := dbPostOrderLineInventory_ok db id u1 t1 line hline hps hu1
  have hfind2raw : (db.dbOrderLines.map (fun x =>
      if x.id == id then mergeOrderLine x (inventoryPatch u1 t1) else x)).find?
      (fun l => l.id == id)
      = some (mergeOrderLine line (inventoryPatch u1 t1)) :=
    find?_map_if (fun l => l.id == id)
      (fun l => mergeOrderLine l (inventoryPatch u1 t1)) hq1 db.dbOrderLines
      line hfindraw
  have hfind2 : dbGetOrderLine id
      { db with dbOrderLines := (db.dbOrderLines.map (fun x =>
          if x.id == id then mergeOrderLine x (inventoryPatch u1 t1) else x)) }
      = some (mergeOrderLine line (inventoryPatch u1 t1)) := hfind2raw
  have hps1 : (mergeOrderLine line (inventoryPatch u1 t1)).pickStatus
      = "Plockat" := by
    simp [mergeOrderLine, inventoryPatch, hps]
  have hE2 := dbPostOrderLineInventory_ok
    { db with dbOrderLines := (db.dbOrderLines.map (fun x =>
        if x.id == id then mergeOrderLine x (inventoryPatch u1 t1) else x)) }
    id u2 t2 (mergeOrderLine line (inventoryPatch u1 t1)) hfind2 hps1 hu2
  have hfind3raw : ((db.dbOrderLines.map (fun x =>
      if x.id == id then mergeOrderLine x (inventoryPatch u1 t1) else x)).map
      (fun x => if x.id == id then mergeOrderLine x (inventoryPatch u2 t2)
        else x)).find? (fun l => l.id == id)
      = some (mergeOrderLine (mergeOrderLine line (inventoryPatch u1 t1))
          (inventoryPatch u2 t2)) :=
    find?_map_if (fun l => l.id == id)
      (fun l => mergeOrderLine l (inventoryPatch u2 t2)) hq2 _ _ hfind2raw
  refine ⟨?_, ?_, ?_, ?_, ?_, ?_, ?_, ?_, ?_, ?_⟩
  · rw [hE1]
  · rw [hE1]
    exact hfind2raw
  · simp [mergeOrderLine, inventoryPatch]
  · simp [mergeOrderLine, inventoryPatch]
  · simp only [hE1, hE2]
  · simp only [hE1, hE2]
    exact hfind3raw
  · simp [mergeOrderLine, inventoryPatch]
  · simp [mergeOrderLine, inventoryPatch]
  · simp only [hE1, hE2]
  · intro u3 hu3
    have hE3 := dbPostOrderLineInventory_fk
      { db with dbOrderLines := (db.dbOrderLines.map (fun x =>
          if x.id == id then mergeOrderLine x (inventoryPatch u1 t1) else x)) }
      id u3 t2 (mergeOrderLine line (inventoryPatch u1 t1)) hfind2 hps1 hu3
    exact ⟨by simp only [hE1, hE3], by simp only [hE1, hE3]⟩

/-- Witness for c9_reinventory on the seeded database: two existing users
(ids 1 and 2), one picked order line (id 10); the second call succeeds. -/
theorem c9_reinventory_witness :
    (dbPostOrderLineInventory 5 10 (some 2)
        (dbPostOrderLineInventory 4 10 (some 1) dbSeed).db).resp
      = some ⟨200, none⟩ :=
  (c9_reinventory dbSeed 10 1 2 4 5 seedLine (by decide) (by decide)
    (by decide) (by decide)).2.2.2.2.1

end Inventera
